import Mathlib

namespace PDA

/- Shallow embedding of the PDA repository's grounded-generation pipeline:
   guardrails (src/pda/guardrails.py), job store (src/pda/jobs/store.py),
   web-content endpoint and background driver (src/backend/routes/web_content.py),
   fact-sheet extractor (src/pda/extract/factsheet_extractor.py),
   verifier (src/pda/verifier/verifier.py) and citation resolution
   (src/pda/content_pack/web_content_generator.py).
   Strings are modelled as lists of characters; Python regex scanning is
   modelled by priority-ordered backtracking matchers specialised to the
   regular expressions that appear literally in the source. -/

abbrev Str := List Char

/- Python whitespace characters relevant here (ASCII subset of str.isspace / \s). -/
def pyIsSpace (c : Char) : Bool :=
  c = ' ' || c = '\t' || c = '\n' || c = '\r' || c = Char.ofNat 11 || c = Char.ofNat 12

def pyIsDigit (c : Char) : Bool := c.isDigit

def pyIsAsciiAlpha (c : Char) : Bool :=
  ('a' ≤ c && c ≤ 'z') || ('A' ≤ c && c ≤ 'Z')

/- Python \w (word character) over the alphabet used by this repository. -/
def pyIsWord (c : Char) : Bool :=
  c.isAlphanum || c = '_' || c = 'µ' || c = 'μ' || c = 'ü' || c = 'Ü' || c = 'Ω'

/- Python str.lower over the alphabet used by this repository. -/
def pyLowerChar (c : Char) : Char :=
  if 'A' ≤ c && c ≤ 'Z' then Char.ofNat (c.toNat + 32)
  else if c = 'Ü' then 'ü'
  else c

def pyLower (s : Str) : Str := s.map pyLowerChar

def dropLeadingSpace (s : Str) : Str :=
  match s with
  | [] => []
  | c :: r => if pyIsSpace c then dropLeadingSpace r else s

/- Python str.strip(). -/
def pyStrip (s : Str) : Str :=
  (dropLeadingSpace ((dropLeadingSpace s.reverse).reverse).reverse).reverse

/- re.sub(r"\s+", " ", s): collapse every whitespace run to one space.
   The flag records whether we are inside a whitespace run. -/
def collapseWsAux : Bool → Str → Str
  | _, [] => []
  | inRun, c :: r =>
    if pyIsSpace c then
      if inRun then collapseWsAux true r else ' ' :: collapseWsAux true r
    else c :: collapseWsAux false r

def collapseWs (s : Str) : Str := collapseWsAux false s

/- re.sub(r"\s+", "", s): delete all whitespace. -/
def stripAllWs (s : Str) : Str := s.filter (fun c => !(pyIsSpace c))

def replaceCharAll (a b : Char) (s : Str) : Str :=
  s.map (fun c => if c = a then b else c)

/- _normalize from src/pda/guardrails.py: strip, lowercase, collapse
   whitespace, dashes to "-", "μ" to "µ". -/
def normalize (s : Str) : Str :=
  replaceCharAll 'μ' 'µ'
    (replaceCharAll '—' '-'
      (replaceCharAll '–' '-'
        (collapseWs (pyLower (pyStrip s)))))

/- Python substring containment (`needle in hay`). -/
def isSubstr (needle hay : Str) : Bool :=
  match hay with
  | [] => needle.isEmpty
  | _ :: r => needle.isPrefixOf hay || isSubstr needle r

/- Python str.replace(old, new, 1): replace the leftmost occurrence. -/
def replaceFirst (hay old new : Str) : Str :=
  match hay with
  | [] => []
  | c :: r =>
    if old.isPrefixOf hay ∧ old ≠ [] then new ++ hay.drop old.length
    else c :: replaceFirst r old new

/- ----------------------------------------------------------------- -/
/- Backtracking pattern matchers.  A pattern maps a suffix to the
   priority-ordered list of lengths it can consume, first = the
   alternative Python's regex engine commits to. -/

def PatM := Str → List Nat

def pLit (w : Str) : PatM := fun s => if w.isPrefixOf s then [w.length] else []

def pClass (p : Char → Bool) : PatM := fun s =>
  match s with
  | c :: _ => if p c then [1] else []
  | [] => []

def pSeq (a b : PatM) : PatM := fun s =>
  (a s).flatMap (fun n => (b (s.drop n)).map (fun m => n + m))

def pAlt (a b : PatM) : PatM := fun s => a s ++ b s

def pAlts (l : List PatM) : PatM := fun s => l.flatMap (fun p => p s)

def pOpt (a : PatM) : PatM := fun s => a s ++ [0]

def pAssert (p : Str → Bool) : PatM := fun s => if p s then [0] else []

def countRun (p : Char → Bool) : Str → Nat
  | [] => 0
  | c :: r => if p c then countRun p r + 1 else 0

/- Greedy Kleene star over a character class: longest first. -/
def pStarClass (p : Char → Bool) : PatM := fun s =>
  ((List.range (countRun p s + 1)).reverse)

/- Greedy plus over a character class. -/
def pPlusClass (p : Char → Bool) : PatM := fun s =>
  ((List.range (countRun p s)).reverse).map (fun n => n + 1)

/- Greedy star over a group, with explicit fuel. -/
def pStarG (a : PatM) : Nat → PatM
  | 0, _ => [0]
  | fuel + 1, s =>
    ((a s).flatMap (fun n =>
      if n = 0 then []
      else (pStarG a fuel (s.drop n)).map (fun m => n + m))) ++ [0]

/- Word-boundary test between the last consumed char and the next char. -/
def boundaryAfter (s : Str) (n : Nat) : Bool :=
  match s.drop n with
  | [] => n ≠ 0 && pyIsWord (s.getD (n - 1) ' ')
  | c :: _ =>
    if n = 0 then false
    else pyIsWord (s.getD (n - 1) ' ') != pyIsWord c

def prevIsWord : Option Char → Bool
  | none => false
  | some c => pyIsWord c

/- ----------------------------------------------------------------- -/
/- _NUMERIC_SPEC_RE from src/pda/guardrails.py.  The unit alternatives
   are listed in the order they occur in the alternation; "+LA" marks the
   lookahead (?=[\s,;.)\/\]\-]|$). -/

def laPunct (s : Str) : Bool :=
  match s with
  | [] => true
  | c :: _ =>
    pyIsSpace c || c = ',' || c = ';' || c = '.' || c = ')' || c = '/' ||
      c = ']' || c = '-'

def pLA : PatM := pAssert laPunct

def pUnitDeg : PatM :=
  pSeq (pLit (['°'])) (pSeq (pStarClass pyIsSpace) (pClass (fun c => c = 'C' || c = 'F')))

def pUnitAmp : PatM :=
  pSeq (pOpt (pClass (fun c => c = 'm' || c = 'k' || c = 'μ' || c = 'µ' || c = 'n')))
    (pSeq (pLit (['A'])) (pSeq (pOpt (pAlt (pLit (['C'])) (pLit (['D', 'C'])))) pLA))

def pUnitVolt : PatM :=
  pSeq (pOpt (pClass (fun c => c = 'm' || c = 'k' || c = 'μ' || c = 'µ')))
    (pSeq (pLit (['V'])) (pSeq (pOpt (pAlt (pLit (['D', 'C'])) (pLit (['A', 'C'])))) pLA))

def pUnitWatt : PatM :=
  pSeq (pOpt (pClass (fun c => c = 'm' || c = 'k' || c = 'μ' || c = 'µ')))
    (pSeq (pLit (['W'])) pLA)

def pUnitHz : PatM :=
  pSeq (pOpt (pClass (fun c => c = 'k' || c = 'M' || c = 'G')))
    (pSeq (pLit (['H', 'z'])) pLA)

def pUnitLen : PatM :=
  pAlts
    [ pSeq (pLit (['m', 'm'])) pLA,
      pSeq (pLit (['c', 'm'])) pLA,
      pLit (['μ', 'm']), pLit (['µ', 'm']), pLit (['n', 'm']),
      pSeq (pLit (['k', 'm'])) pLA,
      pSeq (pAlts [pLit ("inches".data), pLit ("inch".data), pLit ("in".data)]) pLA,
      pSeq (pLit (['f', 't'])) pLA ]

def pUnitMass : PatM :=
  pAlts
    [ pSeq (pLit (['k', 'g'])) pLA,
      pSeq (pOpt (pClass (fun c => c = 'm' || c = 'k' || c = 'μ' || c = 'µ')))
        (pSeq (pLit (['g'])) pLA),
      pSeq (pSeq (pLit (['l', 'b'])) (pOpt (pLit (['s'])))) pLA,
      pSeq (pLit (['o', 'z'])) pLA ]

def pUnitPct : PatM :=
  pAlts
    [ pLit (['%']),
      pSeq (pLit ("ppm".data)) pLA,
      pSeq (pLit ("ppb".data)) pLA ]

def pUnitPressure : PatM :=
  pAlts
    [ pSeq (pSeq (pOpt (pClass (fun c => c = 'k' || c = 'M'))) (pLit (['P', 'a']))) pLA,
      pSeq (pLit ("psi".data)) pLA,
      pSeq (pSeq (pOpt (pLit (['m']))) (pLit ("bar".data))) pLA,
      pSeq (pLit ("atm".data)) pLA ]

def pUnitResistance : PatM :=
  pAlts
    [ pSeq (pOpt (pClass (fun c => c = 'k' || c = 'M'))) (pLit (['Ω'])),
      pSeq (pSeq (pLit ("ohm".data)) (pOpt (pLit (['s'])))) pLA ]

def pUnitSound : PatM :=
  pSeq (pSeq (pLit (['d', 'B'])) (pOpt (pClass (fun c => c = 'm' || c = 'A')))) pLA

def pUnitTime : PatM :=
  pAlts
    [ pSeq (pLit (['m', 's'])) pLA,
      pLit (['μ', 's']), pLit (['µ', 's']),
      pSeq (pLit (['n', 's'])) pLA ]

def pUnitFlow : PatM :=
  pSeq (pClass (fun c => c = 'l' || c = 'L'))
    (pSeq (pLit (['/'])) (pAlts [pLit ("min".data), pLit ("hr".data), pLit (['s'])]))

def pUnitLight : PatM :=
  pAlts
    [ pSeq (pLit ("lux".data)) pLA,
      pSeq (pLit (['c', 'd'])) pLA,
      pSeq (pLit (['l', 'm'])) pLA ]

def pUnitTorque : PatM :=
  pAlts
    [ pSeq (pLit (['N', 'm'])) pLA,
      pSeq (pSeq (pClass (fun c => c = 'R' || c = 'r'))
        (pSeq (pClass (fun c => c = 'P' || c = 'p')) (pClass (fun c => c = 'M' || c = 'm')))) pLA ]

def pNumUnit : PatM :=
  pAlts
    [ pUnitDeg, pUnitAmp, pUnitVolt, pUnitWatt, pUnitHz, pUnitLen, pUnitMass,
      pUnitPct, pUnitPressure, pUnitResistance, pUnitSound, pUnitTime,
      pUnitFlow, pUnitLight, pUnitTorque ]

/- \d+(?:[.,]\d+)? -/
def pNumber : PatM :=
  pSeq (pPlusClass pyIsDigit)
    (pOpt (pSeq (pClass (fun c => c = '.' || c = ',')) (pPlusClass pyIsDigit)))

/- (?:±\s*)? -/
def pPM : PatM := pOpt (pSeq (pLit (['±'])) (pStarClass pyIsSpace))

/- (?:\s*(?:[-–]|to)\s*(?:±\s*)?\d+(?:[.,]\d+)?)? -/
def pRange : PatM :=
  pOpt (pSeq (pStarClass pyIsSpace)
    (pSeq (pAlt (pClass (fun c => c = '-' || c = '–')) (pLit (['t', 'o'])))
      (pSeq (pStarClass pyIsSpace) (pSeq pPM pNumber))))

def pNumericSpec : PatM :=
  pSeq pPM (pSeq pNumber (pSeq pRange (pSeq (pStarClass pyIsSpace) pNumUnit)))

/- A top-level matcher: previous character (for word boundaries) and the
   suffix, giving the length the regex engine commits to, if any. -/
def Matcher := Option Char → Str → Option Nat

def matchNumericAt : Matcher := fun _ s => (pNumericSpec s).head?

/- _IP_RATING_RE = \bIP\d{2}\b -/
def matchIpAt : Matcher := fun prev s =>
  if prevIsWord prev then none
  else
    (((pSeq (pLit (['I', 'P'])) (pSeq (pClass pyIsDigit) (pClass pyIsDigit))) s).filter
      (fun n => boundaryAfter s n)).head?

/- _CERT_RE alternatives (lowercased; matching runs on the lowercased
   suffix).  The alternation keeps the source order. -/
def pCertAlts : PatM :=
  pAlts
    [ pSeq (pLit ("iso".data))
        (pSeq (pStarClass pyIsSpace)
          (pSeq (pClass pyIsDigit)
            (pStarClass (fun c => pyIsDigit c || c = ':' || c = '/' || c = ' ' || c = '-')))),
      pSeq (pLit ("iec".data))
        (pSeq (pStarClass pyIsSpace)
          (pSeq (pClass pyIsDigit)
            (pStarClass (fun c => pyIsDigit c || c = ':' || c = '/' || c = ' ' || c = '-')))),
      pLit ("iecex".data),
      pLit ("atex".data),
      pSeq (pLit ("ul".data)) (pSeq (pStarClass pyIsSpace) (pStarClass pyIsDigit)),
      pLit ("csa".data),
      pSeq (pLit ("fm".data)) (pAssert (fun s => !(boundaryFail s))),
      pSeq (pLit ("ce".data)) (pAssert (fun s => !(boundaryFail s))),
      pSeq (pLit ("sil".data)) (pSeq (pStarClass pyIsSpace) (pPlusClass pyIsDigit)),
      pLit ("nema".data),
      pSeq (pLit ("en".data)) (pSeq (pStarClass pyIsSpace) (pPlusClass pyIsDigit)),
      pLit ("rohs".data),
      pLit ("reach".data),
      pSeq (pLit ("mil".data))
        (pSeq (pClass (fun c => c = '-' || c = ' '))
          (pSeq (pLit ("std".data))
            (pSeq (pStarClass (fun c => c = '-' || c = ' ')) (pPlusClass pyIsDigit)))),
      pLit ("fda".data),
      pLit ("namur".data),
      pSeq (pLit ("3-a".data)) (pAssert (fun s => !(boundaryFail s))),
      pLit ("ehedg".data),
      pSeq (pLit ("api".data)) (pSeq (pStarClass pyIsSpace) (pPlusClass pyIsDigit)),
      pLit ("dnv".data),
      pLit ("tüv".data), pLit ("tuv".data),
      pLit ("ped".data),
      pLit ("crn".data) ]
where
  /- after a word character: \b fails iff the next char is also a word char -/
  boundaryFail (s : Str) : Bool :=
    match s with
    | [] => false
    | c :: _ => pyIsWord c

/- Case-insensitive match of _CERT_RE at a position: \b(?:...)\b. -/
def matchCertAt : Matcher := fun prev s =>
  if prevIsWord prev then none
  else
    let low := pyLower s
    ((pCertAlts low).filter (fun n => n ≠ 0 && boundaryAfter low n)).head?

/- _PRICE_RE alternatives (case-insensitive, no word boundaries). -/
def pCurrency : PatM := pClass (fun c => c = '$' || c = '€' || c = '£' || c = '¥')

def pPriceCents : PatM :=
  pOpt (pSeq (pLit (['.'])) (pSeq (pClass pyIsDigit) (pOpt (pClass pyIsDigit))))

def pPriceAlts : PatM :=
  pAlts
    [ pSeq pCurrency
        (pSeq (pStarClass pyIsSpace)
          (pSeq (pClass pyIsDigit)
            (pSeq (pStarClass (fun c => pyIsDigit c || c = ',')) pPriceCents))),
      pSeq (pClass pyIsDigit)
        (pSeq (pStarClass (fun c => pyIsDigit c || c = ','))
          (pSeq pPriceCents
            (pSeq (pStarClass pyIsSpace)
              (pAlts
                [ pLit ("usd".data), pLit ("eur".data), pLit ("gbp".data),
                  pSeq (pLit ("dollar".data)) (pOpt (pLit (['s']))),
                  pSeq (pLit ("euro".data)) (pOpt (pLit (['s']))) ])))),
      pSeq
        (pAlts
          [ pSeq (pLit ("priced".data)) (pSeq (pPlusClass pyIsSpace) (pLit ("at".data))),
            pSeq (pLit ("cost".data)) (pSeq (pOpt (pLit (['s']))) (pPlusClass pyIsSpace)),
            pLit ("msrp".data),
            pSeq (pLit ("list".data)) (pSeq (pPlusClass pyIsSpace) (pLit ("price".data))),
            pSeq (pLit ("starting".data))
              (pSeq (pPlusClass pyIsSpace) (pAlt (pLit ("at".data)) (pLit ("from".data)))) ])
        (pSeq (pStarClass pyIsSpace)
          (pSeq (pOpt (pAlt (pLit ([':'])) pCurrency))
            (pSeq (pStarClass pyIsSpace) (pClass pyIsDigit)))) ]

def matchPriceAt : Matcher := fun _ s => (pPriceAlts (pyLower s)).head?

/- _PROPER_NOUN_RE = \b[A-Z][a-zA-Z]+(?:[+&][A-Z][a-zA-Z]+)*\b -/
def pProperWordTail : PatM :=
  pSeq (pClass (fun c => 'A' ≤ c && c ≤ 'Z')) (pPlusClass pyIsAsciiAlpha)

def matchProperNounAt : Matcher := fun prev s =>
  if prevIsWord prev then none
  else
    ((pSeq pProperWordTail
        (pStarG (pSeq (pClass (fun c => c = '+' || c = '&')) pProperWordTail) s.length) s).filter
      (fun n => boundaryAfter s n)).head?

/- \[(pdf-[^\]]+|url-[^\]]+)\]  (the capture group excludes the brackets) -/
def matchCiteAt : Matcher := fun _ s =>
  ((pSeq (pLit (['[']))
      (pSeq (pAlt (pLit ("pdf-".data)) (pLit ("url-".data)))
        (pSeq (pPlusClass (fun c => c ≠ ']')) (pLit ([']']))))) s).head?

/- ----------------------------------------------------------------- -/
/- re.finditer: leftmost, non-overlapping matches, as (start, length). -/

def findIterAux (m : Matcher) : Nat → Option Char → Str → Nat → List (Nat × Nat)
  | 0, _, _, _ => []
  | fuel + 1, prev, s, pos =>
    match s with
    | [] => []
    | c :: rest =>
      match m prev s with
      | some n =>
        if n = 0 then findIterAux m fuel (some c) rest (pos + 1)
        else (pos, n) :: findIterAux m fuel (some (s.getD (n - 1) ' ')) (s.drop n) (pos + n)
      | none => findIterAux m fuel (some c) rest (pos + 1)

def findIter (m : Matcher) (s : Str) : List (Nat × Nat) :=
  findIterAux m (s.length + 1) none s 0

/- The list of matched substrings (re.finditer + m.group()). -/
def findAllMatches (m : Matcher) (s : Str) : List Str :=
  (findIter m s).map (fun pl => (s.drop pl.1).take pl.2)

/- re.sub with a replacer that may also emit a warning (the guardrail
   replacer closures append to a shared warning list; warnings are
   produced in match order). -/
def pySubAux {W : Type} (m : Matcher) (repl : Str → Str × Option W) :
    Nat → Option Char → Str → Str × List W
  | 0, _, _ => ([], [])
  | fuel + 1, prev, s =>
    match s with
    | [] => ([], [])
    | c :: rest =>
      match m prev s with
      | some n =>
        if n = 0 then
          let t := pySubAux m repl fuel (some c) rest
          (c :: t.1, t.2)
        else
          let matched := s.take n
          let r := repl matched
          let t := pySubAux m repl fuel (some (s.getD (n - 1) ' ')) (s.drop n)
          (r.1 ++ t.1, r.2.toList ++ t.2)
      | none =>
        let t := pySubAux m repl fuel (some c) rest
        (c :: t.1, t.2)

def pySub {W : Type} (m : Matcher) (repl : Str → Str × Option W) (s : Str) : Str × List W :=
  pySubAux m repl (s.length + 1) none s

/- ----------------------------------------------------------------- -/
/- Data model: src/pda/schemas/factsheet_schema.py and
   src/pda/schemas/web_content_schemas.py. -/

structure KeySpec where
  name : String := ""
  value : String := ""
  unit : String := ""
  conditions : String := ""
  evidence_chunk_ids : List String := []
deriving DecidableEq, Repr

structure Constraint where
  statement : String := ""
  evidence_chunk_ids : List String := []
deriving DecidableEq, Repr

structure Differentiator where
  statement : String := ""
  evidence_chunk_ids : List String := []
deriving DecidableEq, Repr

structure ProductFactSheet where
  product_name : String := "NOT_FOUND"
  product_category : String := "NOT_FOUND"
  primary_use_cases : List String := []
  target_buyer_roles : List String := []
  key_specs : List KeySpec := []
  constraints : List Constraint := []
  differentiators : List Differentiator := []
  certifications_standards : List String := []
  integrations_interfaces : List String := []
  maintenance_calibration : List String := []
  source_coverage_summary : String := "NOT_FOUND"
deriving DecidableEq, Repr

structure GuardrailWarning where
  category : String
  severity : String := "replaced"
  field_path : String := ""
  original_snippet : String := ""
  replacement : String := ""
  detail : String := ""
deriving DecidableEq, Repr

structure EvidenceRef where
  chunk_ids : List String := []
  source_file : String := ""
  page_numbers : List Int := []
  verbatim_excerpt : String := ""
deriving DecidableEq, Repr

structure BenefitItem where
  headline : String := ""
  description : String := ""
  is_factual : Bool := true
  evidence : List EvidenceRef := []
deriving DecidableEq, Repr

structure SpecExplained where
  spec_name : String := ""
  spec_value : String := ""
  unit : String := ""
  plain_language : String := ""
  evidence : List EvidenceRef := []
deriving DecidableEq, Repr

structure LandingPageDraft where
  problem_statement : String := ""
  solution_overview : String := ""
  benefits : List BenefitItem := []
  how_it_works : String := ""
  specs_explained : List SpecExplained := []
  call_to_action : String := ""
deriving DecidableEq, Repr

structure FAQItem where
  question : String := ""
  answer : String := ""
  is_factual : Bool := true
  evidence : List EvidenceRef := []
deriving DecidableEq, Repr

structure UseCasePageDraft where
  title : String := ""
  slug : String := ""
  is_suggested : Bool := false
  problem_context : String := ""
  solution_fit : String := ""
  benefits : List String := []
  implementation_notes : String := ""
  evidence : List EvidenceRef := []
deriving DecidableEq, Repr

structure ComparisonDimension where
  dimension : String := ""
  this_product : String := ""
  generic_alternative : String := ""
  evidence : List EvidenceRef := []
deriving DecidableEq, Repr

structure ComparisonDraft where
  title : String := ""
  best_for : List String := []
  not_ideal_for : List String := []
  dimensions : List ComparisonDimension := []
deriving DecidableEq, Repr

structure SEOHeading where
  tag : String := "h2"
  text : String := ""
deriving DecidableEq, Repr

structure SEODraft where
  title_tag : String := ""
  meta_description : String := ""
  headings : List SEOHeading := []
  product_jsonld : List (String × String) := []
deriving DecidableEq, Repr

structure WebContentDrafts where
  landing_page : LandingPageDraft := {}
  faq : List FAQItem := []
  use_case_pages : List UseCasePageDraft := []
  comparisons : List ComparisonDraft := []
  seo : SEODraft := {}
deriving DecidableEq, Repr

/- ----------------------------------------------------------------- -/
/- Allowed-set builders (Python sets are modelled as duplicate-free
   lists; only membership and `any` iteration are used). -/

def addUniq (l : List Str) (x : Str) : List Str :=
  if l.contains x then l else l ++ [x]

def addAllUniq (l : List Str) (xs : List Str) : List Str :=
  xs.foldl addUniq l

/- _build_allowed_numeric_set -/
def buildAllowedNumericSet (sheet : ProductFactSheet) : List Str :=
  let fromSpecs := sheet.key_specs.foldl (fun acc spec =>
    if spec.value = "" then acc
    else
      addUniq (addUniq (addUniq acc
        (normalize ((spec.value ++ " " ++ spec.unit).data)))
        (normalize (spec.value.data)))
        (normalize ((spec.value ++ spec.unit).data))) []
  let harvestTexts :=
    sheet.constraints.map (fun c => c.statement) ++
    sheet.differentiators.map (fun d => d.statement) ++
    sheet.maintenance_calibration ++
    sheet.integrations_interfaces
  harvestTexts.foldl (fun acc text =>
    let t := text.data
    let acc1 := addAllUniq acc ((findAllMatches matchNumericAt t).map normalize)
    addAllUniq acc1 ((findAllMatches matchIpAt t).map normalize)) fromSpecs

/- _build_allowed_certs -/
def buildAllowedCerts (sheet : ProductFactSheet) : List Str :=
  sheet.certifications_standards.foldl (fun acc c =>
    if c = "" then acc else addUniq acc (normalize c.data)) []

/- _numeric_is_grounded -/
def numericIsGrounded (matchText : Str) (allowed : List Str) : Bool :=
  let norm := normalize matchText
  let normNospace := stripAllWs norm
  if allowed.contains norm || allowed.contains normNospace then true
  else
    allowed.any (fun a =>
      let aNospace := stripAllWs a
      isSubstr normNospace aNospace || isSubstr aNospace normNospace ||
        isSubstr norm a || isSubstr a norm)

/- _cert_is_grounded -/
def certIsGrounded (certText : Str) (allowed : List Str) : Bool :=
  let norm := normalize certText
  allowed.any (fun a => isSubstr norm a || isSubstr a norm)

/- ----------------------------------------------------------------- -/
/- _clean_text_field: four scan-and-replace passes in sequence. -/

def numericReplacer (allowed : List Str) (fieldPath : String) (matched : Str) :
    Str × Option GuardrailWarning :=
  if numericIsGrounded matched allowed then (matched, none)
  else
    let o := String.mk matched
    (("[refer to datasheet]").data,
      some
        { category := "ungrounded_numeric_spec", severity := "replaced",
          field_path := fieldPath, original_snippet := o,
          replacement := "[refer to datasheet]",
          detail := s!"Numeric spec '{o}' not found in fact sheet key_specs or other documented fields." })

def ipReplacer (allowed : List Str) (fieldPath : String) (matched : Str) :
    Str × Option GuardrailWarning :=
  if numericIsGrounded matched allowed then (matched, none)
  else
    let o := String.mk matched
    (("[refer to datasheet]").data,
      some
        { category := "ungrounded_numeric_spec", severity := "replaced",
          field_path := fieldPath, original_snippet := o,
          replacement := "[refer to datasheet]",
          detail := s!"IP rating '{o}' not found in fact sheet key_specs or other documented fields." })

def certReplacer (allowed : List Str) (fieldPath : String) (matched : Str) :
    Str × Option GuardrailWarning :=
  if certIsGrounded matched allowed then (matched, none)
  else
    let o := String.mk matched
    (("[certification not verified]").data,
      some
        { category := "ungrounded_certification", severity := "replaced",
          field_path := fieldPath, original_snippet := o,
          replacement := "[certification not verified]",
          detail := s!"Certification '{o}' not in fact sheet certifications_standards." })

def priceReplacer (sourceTextLower : Str) (fieldPath : String) (matched : Str) :
    Str × Option GuardrailWarning :=
  if sourceTextLower ≠ [] && isSubstr (pyLower matched) sourceTextLower then (matched, none)
  else
    let o := String.mk matched
    (("[pricing not verified]").data,
      some
        { category := "ungrounded_pricing", severity := "replaced",
          field_path := fieldPath, original_snippet := o,
          replacement := "[pricing not verified]",
          detail := s!"Pricing claim '{o}' not found in source documents." })

def cleanTextField (text : String) (fieldPath : String)
    (allowedNumerics allowedCerts : List Str)
    (productNameLower sourceTextLower : Str) :
    String × List GuardrailWarning :=
  let _ := productNameLower
  if text.data = [] || pyStrip text.data = [] then (text, [])
  else
    let r1 := pySub matchNumericAt (numericReplacer allowedNumerics fieldPath) text.data
    let r2 := pySub matchIpAt (ipReplacer allowedNumerics fieldPath) r1.1
    let r3 := pySub matchCertAt (certReplacer allowedCerts fieldPath) r2.1
    let r4 := pySub matchPriceAt (priceReplacer sourceTextLower fieldPath) r3.1
    (String.mk r4.1, r1.2 ++ r2.2 ++ r3.2 ++ r4.2)

/- _NON_BRAND_WORDS -/
def nonBrandWords : List String :=
  [ "The", "This", "That", "These", "Those", "There", "Here",
    "What", "How", "Why", "When", "Where", "Which", "Who",
    "Each", "Every", "Some", "Many", "Most", "Any", "All",
    "Note", "Important", "Warning", "Caution", "Example",
    "True", "False", "None", "Yes", "No",
    "FAQ", "SEO", "API", "URL", "PDF", "LED", "LCD",
    "Bluetooth", "Ethernet", "Modbus", "Profibus", "Profinet",
    "WiFi", "Internet",
    "Product", "System", "Device", "Sensor", "Instrument",
    "Meter", "Controller", "Transmitter", "Analyzer", "Analyser",
    "Monitor", "Detector", "Probe", "Valve", "Actuator", "Pump",
    "Solution", "Technology", "Alternative", "Generic", "Traditional",
    "Conventional", "Typical", "Standard", "Industrial", "Process",
    "Temperature", "Pressure", "Flow", "Level", "Humidity",
    "Accuracy", "Precision", "Range", "Resolution",
    "Installation", "Maintenance", "Calibration", "Configuration",
    "Overview", "Summary", "Introduction", "Conclusion",
    "Benefits", "Features", "Specifications", "Applications",
    "Comparison", "Versus" ]

/- _scan_for_competitor_brands: iterates the proper-noun matches of the
   ORIGINAL text while replacing the first substring occurrence in the
   running result (str.replace(word, replacement, 1)). -/
def scanCompetitorStep (fieldPath : String) (productNameLower sourceTextLower : Str)
    (acc : Str × List GuardrailWarning) (word : Str) : Str × List GuardrailWarning :=
  if word.length < 3 then acc
  else if nonBrandWords.contains (String.mk word) then acc
  else
    let wordLower := pyLower word
    if isSubstr wordLower productNameLower then acc
    else if sourceTextLower ≠ [] && isSubstr wordLower sourceTextLower then acc
    else
      let w := String.mk word
      (replaceFirst acc.1 word (("[competitor name removed]").data),
        acc.2 ++
          [{ category := "competitor_brand", severity := "replaced",
             field_path := fieldPath, original_snippet := w,
             replacement := "[competitor name removed]",
             detail := s!"Possible competitor brand '{w}' not found in source documents — replaced." }])

def scanForCompetitorBrands (text : String) (fieldPath : String)
    (productNameLower sourceTextLower : Str) :
    String × List GuardrailWarning :=
  if text.data = [] || pyStrip text.data = [] then (text, [])
  else
    let words := findAllMatches matchProperNounAt text.data
    let r := words.foldl (scanCompetitorStep fieldPath productNameLower sourceTextLower)
      (text.data, [])
    (String.mk r.1, r.2)

/- ----------------------------------------------------------------- -/
/- Section-level cleaners (mirroring _clean_landing_page etc.). -/

def cleanBenefits (allowedNumerics allowedCerts : List Str)
    (productNameLower sourceTextLower : Str) :
    Nat → List BenefitItem → List BenefitItem × List GuardrailWarning
  | _, [] => ([], [])
  | i, b :: rest =>
    let path := s!"landing_page.benefits[{i}].description"
    let r := cleanTextField b.description path allowedNumerics allowedCerts
      productNameLower sourceTextLower
    let b' : BenefitItem :=
      { b with description := r.1,
               is_factual := if r.1 ≠ b.description then false else b.is_factual }
    let t := cleanBenefits allowedNumerics allowedCerts productNameLower sourceTextLower
      (i + 1) rest
    (b' :: t.1, r.2 ++ t.2)

def cleanSpecsExplained (allowedNumerics allowedCerts : List Str)
    (productNameLower sourceTextLower : Str) :
    Nat → List SpecExplained → List SpecExplained × List GuardrailWarning
  | _, [] => ([], [])
  | i, sp :: rest =>
    let path := s!"landing_page.specs_explained[{i}].plain_language"
    let r := cleanTextField sp.plain_language path allowedNumerics allowedCerts
      productNameLower sourceTextLower
    let t := cleanSpecsExplained allowedNumerics allowedCerts productNameLower
      sourceTextLower (i + 1) rest
    ({ sp with plain_language := r.1 } :: t.1, r.2 ++ t.2)

def cleanLandingPage (lp : LandingPageDraft) (allowedNumerics allowedCerts : List Str)
    (productNameLower sourceTextLower : Str) :
    LandingPageDraft × List GuardrailWarning :=
  let r1 := cleanTextField lp.problem_statement ("landing_page.problem_statement")
    allowedNumerics allowedCerts productNameLower sourceTextLower
  let r2 := cleanTextField lp.solution_overview ("landing_page.solution_overview")
    allowedNumerics allowedCerts productNameLower sourceTextLower
  let r3 := cleanTextField lp.how_it_works ("landing_page.how_it_works")
    allowedNumerics allowedCerts productNameLower sourceTextLower
  let r4 := cleanTextField lp.call_to_action ("landing_page.call_to_action")
    allowedNumerics allowedCerts productNameLower sourceTextLower
  let rb := cleanBenefits allowedNumerics allowedCerts productNameLower sourceTextLower
    0 lp.benefits
  let rs := cleanSpecsExplained allowedNumerics allowedCerts productNameLower
    sourceTextLower 0 lp.specs_explained
  ({ lp with problem_statement := r1.1, solution_overview := r2.1,
             how_it_works := r3.1, call_to_action := r4.1,
             benefits := rb.1, specs_explained := rs.1 },
    r1.2 ++ r2.2 ++ r3.2 ++ r4.2 ++ rb.2 ++ rs.2)

def cleanFaqItems (allowedNumerics allowedCerts : List Str)
    (productNameLower sourceTextLower : Str) :
    Nat → List FAQItem → List FAQItem × List GuardrailWarning
  | _, [] => ([], [])
  | i, item :: rest =>
    let path := s!"faq[{i}].answer"
    let r := cleanTextField item.answer path allowedNumerics allowedCerts
      productNameLower sourceTextLower
    let item' : FAQItem :=
      { item with answer := r.1,
                  is_factual := if r.1 ≠ item.answer then false else item.is_factual }
    let t := cleanFaqItems allowedNumerics allowedCerts productNameLower sourceTextLower
      (i + 1) rest
    (item' :: t.1, r.2 ++ t.2)

def cleanStringList (pathOf : Nat → String) (allowedNumerics allowedCerts : List Str)
    (productNameLower sourceTextLower : Str) :
    Nat → List String → List String × List GuardrailWarning
  | _, [] => ([], [])
  | j, text :: rest =>
    let r := cleanTextField text (pathOf j) allowedNumerics allowedCerts
      productNameLower sourceTextLower
    let t := cleanStringList pathOf allowedNumerics allowedCerts productNameLower
      sourceTextLower (j + 1) rest
    (r.1 :: t.1, r.2 ++ t.2)

def cleanUseCasePage (i : Nat) (page : UseCasePageDraft)
    (allowedNumerics allowedCerts : List Str)
    (productNameLower sourceTextLower : Str) :
    UseCasePageDraft × List GuardrailWarning :=
  let r1 := cleanTextField page.problem_context (s!"use_case_pages[{i}].problem_context")
    allowedNumerics allowedCerts productNameLower sourceTextLower
  let r2 := cleanTextField page.solution_fit (s!"use_case_pages[{i}].solution_fit")
    allowedNumerics allowedCerts productNameLower sourceTextLower
  let r3 := cleanTextField page.implementation_notes
    (s!"use_case_pages[{i}].implementation_notes")
    allowedNumerics allowedCerts productNameLower sourceTextLower
  let rb := cleanStringList (fun j => s!"use_case_pages[{i}].benefits[{j}]")
    allowedNumerics allowedCerts productNameLower sourceTextLower 0 page.benefits
  ({ page with problem_context := r1.1, solution_fit := r2.1,
               implementation_notes := r3.1, benefits := rb.1 },
    r1.2 ++ r2.2 ++ r3.2 ++ rb.2)

def cleanUseCasePages (allowedNumerics allowedCerts : List Str)
    (productNameLower sourceTextLower : Str) :
    Nat → List UseCasePageDraft → List UseCasePageDraft × List GuardrailWarning
  | _, [] => ([], [])
  | i, page :: rest =>
    let r := cleanUseCasePage i page allowedNumerics allowedCerts productNameLower
      sourceTextLower
    let t := cleanUseCasePages allowedNumerics allowedCerts productNameLower
      sourceTextLower (i + 1) rest
    (r.1 :: t.1, r.2 ++ t.2)

def cleanDimensions (i : Nat) (allowedNumerics allowedCerts : List Str)
    (productNameLower sourceTextLower : Str) :
    Nat → List ComparisonDimension → List ComparisonDimension × List GuardrailWarning
  | _, [] => ([], [])
  | j, dim :: rest =>
    let pathTp := s!"comparisons[{i}].dimensions[{j}].this_product"
    let rTp := cleanTextField dim.this_product pathTp allowedNumerics allowedCerts
      productNameLower sourceTextLower
    let pathGa := s!"comparisons[{i}].dimensions[{j}].generic_alternative"
    let rGa := cleanTextField dim.generic_alternative pathGa allowedNumerics allowedCerts
      productNameLower sourceTextLower
    let rBrand := scanForCompetitorBrands rGa.1 pathGa productNameLower sourceTextLower
    let t := cleanDimensions i allowedNumerics allowedCerts productNameLower
      sourceTextLower (j + 1) rest
    ({ dim with this_product := rTp.1, generic_alternative := rBrand.1 } :: t.1,
      rTp.2 ++ rGa.2 ++ rBrand.2 ++ t.2)

def cleanComparisons (allowedNumerics allowedCerts : List Str)
    (productNameLower sourceTextLower : Str) :
    Nat → List ComparisonDraft → List ComparisonDraft × List GuardrailWarning
  | _, [] => ([], [])
  | i, comp :: rest =>
    let rd := cleanDimensions i allowedNumerics allowedCerts productNameLower
      sourceTextLower 0 comp.dimensions
    let rBest := cleanStringList (fun j => s!"comparisons[{i}].best_for[{j}]")
      allowedNumerics allowedCerts productNameLower sourceTextLower 0 comp.best_for
    let rNot := cleanStringList (fun j => s!"comparisons[{i}].not_ideal_for[{j}]")
      allowedNumerics allowedCerts productNameLower sourceTextLower 0 comp.not_ideal_for
    let t := cleanComparisons allowedNumerics allowedCerts productNameLower
      sourceTextLower (i + 1) rest
    ({ comp with dimensions := rd.1, best_for := rBest.1, not_ideal_for := rNot.1 } :: t.1,
      rd.2 ++ rBest.2 ++ rNot.2 ++ t.2)

def cleanSeoHeadings (allowedNumerics allowedCerts : List Str)
    (productNameLower sourceTextLower : Str) :
    Nat → List SEOHeading → List SEOHeading × List GuardrailWarning
  | _, [] => ([], [])
  | i, h :: rest =>
    let r := cleanTextField h.text (s!"seo.headings[{i}].text") allowedNumerics
      allowedCerts productNameLower sourceTextLower
    let t := cleanSeoHeadings allowedNumerics allowedCerts productNameLower
      sourceTextLower (i + 1) rest
    ({ h with text := r.1 } :: t.1, r.2 ++ t.2)

def cleanSeo (seo : SEODraft) (allowedNumerics allowedCerts : List Str)
    (productNameLower sourceTextLower : Str) : SEODraft × List GuardrailWarning :=
  let r1 := cleanTextField seo.title_tag ("seo.title_tag") allowedNumerics allowedCerts
    productNameLower sourceTextLower
  let r2 := cleanTextField seo.meta_description ("seo.meta_description") allowedNumerics
    allowedCerts productNameLower sourceTextLower
  let rh := cleanSeoHeadings allowedNumerics allowedCerts productNameLower
    sourceTextLower 0 seo.headings
  ({ seo with title_tag := r1.1, meta_description := r2.1, headings := rh.1 },
    r1.2 ++ r2.2 ++ rh.2)

/- run_draft_guardrails: the full in-place pass, returning the updated
   drafts and the ordered warning list. -/
def runDraftGuardrails (drafts : WebContentDrafts) (sheet : ProductFactSheet)
    (sourceText : String := "") : WebContentDrafts × List GuardrailWarning :=
  let allowedNumerics := buildAllowedNumericSet sheet
  let allowedCerts := buildAllowedCerts sheet
  let productNameLower := normalize sheet.product_name.data
  let sourceTextLower := pyLower sourceText.data
  let rLp := cleanLandingPage drafts.landing_page allowedNumerics allowedCerts
    productNameLower sourceTextLower
  let rFaq := cleanFaqItems allowedNumerics allowedCerts productNameLower
    sourceTextLower 0 drafts.faq
  let rUc := cleanUseCasePages allowedNumerics allowedCerts productNameLower
    sourceTextLower 0 drafts.use_case_pages
  let rComp := cleanComparisons allowedNumerics allowedCerts productNameLower
    sourceTextLower 0 drafts.comparisons
  let rSeo := cleanSeo drafts.seo allowedNumerics allowedCerts productNameLower
    sourceTextLower
  ({ drafts with landing_page := rLp.1, faq := rFaq.1, use_case_pages := rUc.1,
                 comparisons := rComp.1, seo := rSeo.1 },
    rLp.2 ++ rFaq.2 ++ rUc.2 ++ rComp.2 ++ rSeo.2)

/- ----------------------------------------------------------------- -/
/- Parsed JSON values (the result of stdlib json.loads, which itself is
   an external collaborator and stays a parameter). -/

inductive Json where
  | null : Json
  | bool (b : Bool) : Json
  | num (n : Int) : Json
  | str (s : String) : Json
  | arr (l : List Json) : Json
  | obj (l : List (String × Json)) : Json

/- ----------------------------------------------------------------- -/
/- Generation jobs: src/pda/jobs/models.py and src/pda/jobs/store.py. -/

inductive JobStatus where
  | queued | running | succeeded | failed
deriving DecidableEq, Repr

def JobStatus.value : JobStatus → String
  | .queued => "queued"
  | .running => "running"
  | .succeeded => "succeeded"
  | .failed => "failed"

structure GenerationJob where
  job_id : String := ""
  product_id : String := ""
  idempotency_key : String := ""
  status : JobStatus := .queued
  progress : Nat := 0
  params : List (String × Option String) := []
  error_message : Option String := none
  drafts : Option (List (String × Json)) := none
  metadata : Option (List (String × Json)) := none
  created_at : Nat := 0
  updated_at : Nat := 0

/- Python truthiness of an optional dict (None and {} are falsy). -/
def optDictTruthy : Option (List (String × Json)) → Bool
  | none => false
  | some d => !d.isEmpty

/- PostgresJobStore: rows of pda_generation_jobs, in insertion order. -/

def pgCreate (now : Nat) (rows : List GenerationJob) (job : GenerationJob) :
    List GenerationJob :=
  rows ++ [{ job with created_at := now, updated_at := now }]

def pgGet (rows : List GenerationJob) (jobId : String) : Option GenerationJob :=
  (rows.filter (fun r => r.job_id = jobId)).head?

/- status IN ('queued','running') -/
def pgKeyInFlight (key : String) (r : GenerationJob) : Bool :=
  decide (r.idempotency_key = key ∧
    (r.status = JobStatus.queued ∨ r.status = JobStatus.running))

/- ORDER BY created_at DESC LIMIT 1 -/
def pgPickLatest (best : Option GenerationJob) (r : GenerationJob) :
    Option GenerationJob :=
  match best with
  | none => some r
  | some b => if r.created_at > b.created_at then some r else some b

/- WHERE idempotency_key = %s AND status IN ('queued','running')
   ORDER BY created_at DESC LIMIT 1 -/
def pgGetByIdempotencyKey (rows : List GenerationJob) (key : String) :
    Option GenerationJob :=
  (rows.filter (pgKeyInFlight key)).foldl pgPickLatest none

/- UPDATE ... SET status, progress, error_message,
   drafts = COALESCE(new, drafts), metadata = COALESCE(new, metadata),
   updated_at = NOW() WHERE job_id = %s;  the bound drafts/metadata
   parameter is NULL whenever the passed job's field is falsy. -/
def pgUpdateRow (now : Nat) (job : GenerationJob) (r : GenerationJob) : GenerationJob :=
  if r.job_id = job.job_id then
    { r with status := job.status, progress := job.progress,
             error_message := job.error_message,
             drafts := if optDictTruthy job.drafts then job.drafts else r.drafts,
             metadata := if optDictTruthy job.metadata then job.metadata else r.metadata,
             updated_at := now }
  else r

def pgUpdate (now : Nat) (rows : List GenerationJob) (job : GenerationJob) :
    List GenerationJob :=
  rows.map (pgUpdateRow now job)

/- FileJobStore: an idempotency index plus one JSON file per job. -/

structure FileJobStoreState where
  index : List (String × String) := []
  jobs : List (String × GenerationJob) := []

/- Python dict assignment d[k] = v (keys are unique by construction). -/
def setAssoc {α : Type} : List (String × α) → String → α → List (String × α)
  | [], k, v => [(k, v)]
  | p :: rest, k, v =>
    if p.1 = k then (k, v) :: rest else p :: setAssoc rest k v

def fileCreate (s : FileJobStoreState) (job : GenerationJob) : FileJobStoreState :=
  { index := setAssoc s.index job.idempotency_key job.job_id,
    jobs := setAssoc s.jobs job.job_id job }

def fileGet (s : FileJobStoreState) (jobId : String) : Option GenerationJob :=
  s.jobs.lookup jobId

/- `job_id = self._index.get(key); if not job_id: return None` — the
   stored job is returned with NO status filter. -/
def fileGetByIdempotencyKey (s : FileJobStoreState) (key : String) :
    Option GenerationJob :=
  match s.index.lookup key with
  | none => none
  | some jobId => if jobId = "" then none else fileGet s jobId

def fileUpdate (s : FileJobStoreState) (job : GenerationJob) : FileJobStoreState :=
  { s with jobs := setAssoc s.jobs job.job_id job }

/- The narrow store interface shared by both implementations. -/
structure JobStoreOps (σ : Type) where
  create : σ → GenerationJob → σ
  getJob : σ → String → Option GenerationJob
  getByIdempotencyKey : σ → String → Option GenerationJob
  update : σ → GenerationJob → σ

def pgOps (now : Nat) : JobStoreOps (List GenerationJob) :=
  { create := pgCreate now, getJob := pgGet,
    getByIdempotencyKey := pgGetByIdempotencyKey, update := pgUpdate now }

def fileOps : JobStoreOps FileJobStoreState :=
  { create := fileCreate, getJob := fileGet,
    getByIdempotencyKey := fileGetByIdempotencyKey, update := fileUpdate }

/- ----------------------------------------------------------------- -/
/- src/backend/routes/web_content.py: request, idempotency key, endpoint
   and background driver. -/

structure GenerateWebContentRequest where
  tone : String := "neutral"
  length : String := "medium"
  audience : String := "ops_manager"
  llm_provider : Option String := none
  llm_model : Option String := none
deriving DecidableEq, Repr

/- The hashed payload of _idempotency_key; hashlib.sha256 hexdigest[:32]
   stays an abstract injected function. -/
def idempotencyKeyPayload (productId : String) (req : GenerateWebContentRequest) :
    String :=
  productId ++ "|" ++ req.tone ++ "|" ++ req.length ++ "|" ++ req.audience ++ "|" ++
    req.llm_provider.getD "" ++ "|" ++ req.llm_model.getD ""

def idempotencyKey (h : String → String) (productId : String)
    (req : GenerateWebContentRequest) : String :=
  h (idempotencyKeyPayload productId req)

inductive EndpointResponse where
  | httpError (code : Nat) (detail : String)
  | jobResponse (job_id : String) (status : JobStatus)
deriving DecidableEq, Repr

/- Pre-job request validation performed by the endpoint (project dir,
   PDFs present, LLM resolvable). -/
structure EndpointEnv where
  projectExists : Bool := true
  hasPdfs : Bool := true
  llmOk : Bool := true
deriving DecidableEq, Repr

def paramsOfRequest (req : GenerateWebContentRequest) : List (String × Option String) :=
  [("tone", some req.tone), ("length", some req.length),
   ("audience", some req.audience), ("llm_provider", req.llm_provider),
   ("llm_model", req.llm_model)]

/- generate_web_content_endpoint (POST .../generate-content). -/
def generateWebContentEndpoint {σ : Type} (ops : JobStoreOps σ) (h : String → String)
    (env : EndpointEnv) (newJobId : String) (now : Nat) (st : σ)
    (productId : String) (req : GenerateWebContentRequest) :
    EndpointResponse × σ :=
  if !env.projectExists then
    (.httpError 404 (s!"Product/project not found: {productId}"), st)
  else if !env.hasPdfs then
    (.httpError 400 ("No PDFs found in project. Run ingestion first."), st)
  else if !env.llmOk then
    (.httpError 400 ("API key not configured"), st)
  else
    let idemKey := idempotencyKey h productId req
    match ops.getByIdempotencyKey st idemKey with
    | some existing =>
      if existing.status = .queued ∨ existing.status = .running then
        (.jobResponse existing.job_id existing.status, st)
      else
        let job : GenerationJob :=
          { job_id := newJobId, product_id := productId, idempotency_key := idemKey,
            status := .queued, progress := 0, params := paramsOfRequest req,
            created_at := now, updated_at := now }
        (.jobResponse newJobId .queued, ops.create st job)
    | none =>
      let job : GenerationJob :=
        { job_id := newJobId, product_id := productId, idempotency_key := idemKey,
          status := .queued, progress := 0, params := paramsOfRequest req,
          created_at := now, updated_at := now }
      (.jobResponse newJobId .queued, ops.create st job)

/- Python string slicing str(e)[:n]. -/
def pyTrunc (n : Nat) (s : String) : String := String.mk (s.data.take n)

inductive LlmInitFailure where
  | http (detail : String)
  | exc (msg : String)
deriving DecidableEq, Repr

inductive GenFailure where
  | rateLimitOrStatus (msg : String)
  | api (msg : String)
  | exc (msg : String)
deriving DecidableEq, Repr

/- Outcomes of the driver's fallible collaborator calls. -/
structure DriverEnv where
  projectExists : Bool := true
  resolveLlm : Except LlmInitFailure Unit := .ok ()
  vectorStore : Except String Unit := .ok ()
  factsheet : Except String Unit := .ok ()
  generation : Except GenFailure (List (String × Json) × List (String × Json)) :=
    .ok ([], [])

/- _run_generation_task.  Besides the final store state we record every
   job value handed to store.update, in call order. -/
def runGenerationTask {σ : Type} (ops : JobStoreOps σ) (env : DriverEnv) (st0 : σ)
    (jobId productId : String) : σ × List GenerationJob :=
  match ops.getJob st0 jobId with
  | none => (st0, [])
  | some job0 =>
    if ¬(job0.status = .queued ∨ job0.status = .running) then (st0, [])
    else
      let job1 := { job0 with status := JobStatus.running, progress := 10 }
      let st1 := ops.update st0 job1
      if !env.projectExists then
        let j : GenerationJob :=
          { job1 with status := JobStatus.failed,
                      error_message := some (s!"Project not found: {productId}"),
                      progress := 0 }
        (ops.update st1 j, [job1, j])
      else
        match env.resolveLlm with
        | .error (.http detail) =>
          let msg := if detail = "" then "LLM init failed" else detail
          let j := { job1 with status := JobStatus.failed, error_message := some msg }
          (ops.update st1 j, [job1, j])
        | .error (.exc msg) =>
          let j := { job1 with status := JobStatus.failed,
                               error_message := some (pyTrunc 300 msg) }
          (ops.update st1 j, [job1, j])
        | .ok _ =>
          match env.vectorStore with
          | .error e =>
            let m := pyTrunc 200 e
            let j := { job1 with status := JobStatus.failed,
                                 error_message := some (s!"Vector store failed: {m}") }
            (ops.update st1 j, [job1, j])
          | .ok _ =>
            match env.factsheet with
            | .error e =>
              let j := { job1 with status := JobStatus.failed, error_message := some e }
              (ops.update st1 j, [job1, j])
            | .ok _ =>
              let job2 := { job1 with progress := 30 }
              let st2 := ops.update st1 job2
              match env.generation with
              | .error (.rateLimitOrStatus msg) =>
                let m := pyTrunc 200 msg
                let j := { job2 with status := JobStatus.failed,
                                     error_message := some (s!"API quota/error: {m}") }
                (ops.update st2 j, [job1, job2, j])
              | .error (.api msg) =>
                let m := pyTrunc 200 msg
                let j := { job2 with status := JobStatus.failed,
                                     error_message := some (s!"LLM API error: {m}") }
                (ops.update st2 j, [job1, job2, j])
              | .error (.exc msg) =>
                let j := { job2 with status := JobStatus.failed,
                                     error_message := some (pyTrunc 300 msg) }
                (ops.update st2 j, [job1, job2, j])
              | .ok dm =>
                let j := { job2 with progress := 100, status := JobStatus.succeeded,
                                     drafts := some dm.1, metadata := some dm.2,
                                     error_message := none }
                (ops.update st2 j, [job1, job2, j])

def JobStatus.isTerminal : JobStatus → Bool
  | .succeeded => true
  | .failed => true
  | _ => false

/- No consecutive pair of recorded updates leaves a terminal status. -/
def noTerminalReentry : List JobStatus → Bool
  | [] => true
  | [_] => true
  | a :: b :: rest => (!a.isTerminal || b.isTerminal) && noTerminalReentry (b :: rest)

/- ----------------------------------------------------------------- -/
/- src/pda/extract/factsheet_extractor.py. -/

/- Python str() of a parsed JSON scalar. -/
def pyStrJson (j : Json) : String :=
  match j with
  | .null => "None"
  | .bool true => "True"
  | .bool false => "False"
  | .num n => toString n
  | .str s => s
  | .arr _ => "[…]"
  | .obj _ => "\x7b…\x7d"

def jGet (fields : List (String × Json)) (k : String) : Option Json :=
  fields.lookup k

def jTruthy : Json → Bool
  | .null => false
  | .bool b => b
  | .num n => n ≠ 0
  | .str s => s ≠ ""
  | .arr l => !l.isEmpty
  | .obj l => !l.isEmpty

/- Exceptions _validate_fact_sheet can raise; the repair loop catches
   TypeError/KeyError but NOT AttributeError. -/
inductive PyExc where
  | attributeError
  | typeError
deriving DecidableEq, Repr

/- norm_list_str -/
def normListStr (o : Option Json) : List String :=
  match o with
  | none => []
  | some .null => []
  | some (.arr l) => l.map pyStrJson
  | some _ => []

/- str(item.get(k, "")): a present null coerces to "None". -/
def fieldStrD (item : List (String × Json)) (k : String) : String :=
  match jGet item k with
  | none => ""
  | some j => pyStrJson j

/- [str(x) for x in (v or [])]: iterating a non-iterable raises TypeError. -/
def strListOfIter (o : Option Json) : Except PyExc (List String) :=
  let v := match o with
    | none => Json.arr []
    | some j => if jTruthy j then j else Json.arr []
  match v with
  | .arr l => .ok (l.map pyStrJson)
  | .str s => .ok (s.data.map (fun c => String.mk [c]))
  | .obj l => .ok (l.map (fun p => p.1))
  | _ => .error .typeError

/- norm_key_specs (non-dict items are skipped). -/
def buildKeySpecs : List Json → Except PyExc (List KeySpec)
  | [] => .ok []
  | .obj item :: rest => do
    let evidence ← strListOfIter (jGet item ("evidence_chunk_ids"))
    let tail ← buildKeySpecs rest
    .ok ({ name := fieldStrD item ("name"), value := fieldStrD item ("value"),
           unit := fieldStrD item ("unit"), conditions := fieldStrD item ("conditions"),
           evidence_chunk_ids := evidence } :: tail)
  | _ :: rest => buildKeySpecs rest

def normKeySpecs (o : Option Json) : Except PyExc (List KeySpec) :=
  match o with
  | some (.arr l) => buildKeySpecs l
  | _ => .ok []

def buildConstraints : List Json → Except PyExc (List Constraint)
  | [] => .ok []
  | .obj item :: rest => do
    let evidence ← strListOfIter (jGet item ("evidence_chunk_ids"))
    let tail ← buildConstraints rest
    .ok ({ statement := fieldStrD item ("statement"),
           evidence_chunk_ids := evidence } :: tail)
  | _ :: rest => buildConstraints rest

def normConstraints (o : Option Json) : Except PyExc (List Constraint) :=
  match o with
  | some (.arr l) => buildConstraints l
  | _ => .ok []

def buildDifferentiators : List Json → Except PyExc (List Differentiator)
  | [] => .ok []
  | .obj item :: rest => do
    let evidence ← strListOfIter (jGet item ("evidence_chunk_ids"))
    let tail ← buildDifferentiators rest
    .ok ({ statement := fieldStrD item ("statement"),
           evidence_chunk_ids := evidence } :: tail)
  | _ :: rest => buildDifferentiators rest

def normDifferentiators (o : Option Json) : Except PyExc (List Differentiator) :=
  match o with
  | some (.arr l) => buildDifferentiators l
  | _ => .ok []

def scalarOrNotFound (o : Option Json) : String :=
  match o with
  | none => "NOT_FOUND"
  | some .null => "NOT_FOUND"
  | some j => pyStrJson j

/- _validate_fact_sheet: `data.get(...)` on a non-dict root raises
   AttributeError, which the repair loop does not catch. -/
def validateFactSheet (data : Json) : Except PyExc ProductFactSheet :=
  match data with
  | .obj fields => do
    let keySpecs ← normKeySpecs (jGet fields ("key_specs"))
    let theConstraints ← normConstraints (jGet fields ("constraints"))
    let theDifferentiators ← normDifferentiators (jGet fields ("differentiators"))
    .ok
      { product_name := scalarOrNotFound (jGet fields ("product_name")),
        product_category := scalarOrNotFound (jGet fields ("product_category")),
        primary_use_cases := normListStr (jGet fields ("primary_use_cases")),
        target_buyer_roles := normListStr (jGet fields ("target_buyer_roles")),
        key_specs := keySpecs,
        constraints := theConstraints,
        differentiators := theDifferentiators,
        certifications_standards := normListStr (jGet fields ("certifications_standards")),
        integrations_interfaces := normListStr (jGet fields ("integrations_interfaces")),
        maintenance_calibration := normListStr (jGet fields ("maintenance_calibration")),
        source_coverage_summary := scalarOrNotFound (jGet fields ("source_coverage_summary")) }
  | _ => .error .attributeError

/- _strip_code_fence -/
def fenceStartsHere (t : Str) : Bool :=
  (("```").data).isPrefixOf t && (t.drop 3).all pyIsSpace

def removeTrailFence : Str → Str
  | [] => []
  | c :: r =>
    if c = '\n' && fenceStartsHere r then []
    else if fenceStartsHere (c :: r) then []
    else c :: removeTrailFence r

def stripCodeFence (raw : String) : String :=
  let s := pyStrip raw.data
  if (("```").data).isPrefixOf s then
    let s1 := s.drop 3
    let s2 := s1.drop (countRun pyIsWord s1)
    let s3 := match s2 with
      | '\n' :: r => r
      | _ => s2
    String.mk (pyStrip (removeTrailFence s3))
  else String.mk s

inductive ParseAttempt where
  | parsed (sheet : ProductFactSheet)
  | retryable (errText : String)
  | fatal (e : PyExc)

/- One `_parse_json` + `_validate_fact_sheet` attempt, classifying the
   outcome the way the loop's `except (JSONDecodeError, TypeError,
   KeyError)` clause does. -/
def parseFactSheetAttempt (loads : String → Except String Json) (raw : String) :
    ParseAttempt :=
  match loads (stripCodeFence raw) with
  | .error msg => .retryable msg
  | .ok data =>
    match validateFactSheet data with
    | .ok sheet => .parsed sheet
    | .error .typeError => .retryable ("TypeError")
    | .error .attributeError => .fatal .attributeError

inductive ExtractFailure where
  | valueError (msg : String)
  | uncaught (e : PyExc)
deriving DecidableEq, Repr

/- The bounded repair loop of extract_product_fact_sheet: parse the
   current raw output; on a caught failure, spend one retry rendering the
   fix prompt and calling the completion service again; when retries are
   exhausted raise ValueError; an uncaught exception aborts as-is. -/
def extractRepairLoop (loads : String → Except String Json)
    (complete : String → String) (renderFix : String → String) (maxRetries : Nat) :
    Nat → String → Except ExtractFailure ProductFactSheet
  | retriesLeft, raw =>
    match parseFactSheetAttempt loads raw with
    | .parsed sheet => .ok sheet
    | .fatal e => .error (.uncaught e)
    | .retryable errText =>
      match retriesLeft with
      | 0 =>
        let n := maxRetries + 1
        .error (.valueError
          (s!"Could not produce valid ProductFactSheet JSON after {n} attempts. Last error: {errText}"))
      | r + 1 =>
        extractRepairLoop loads complete renderFix maxRetries r (complete (renderFix raw))

def sectionQueries : List String :=
  [ "product name and product category",
    "primary use cases and applications",
    "target buyer roles and personas",
    "key specifications technical specs dimensions",
    "constraints limitations restrictions",
    "differentiators unique selling points advantages",
    "certifications standards compliance",
    "integrations interfaces APIs connectivity",
    "maintenance calibration service",
    "source coverage summary" ]

def maxRetriesDefault : Nat := 2

def retrieveNResults : Nat := 10

/- _chunks_from_store: run the targeted queries and deduplicate by
   chunk id, skipping falsy ids, keeping first-seen order. -/
def chunksFromStore (store : String → Nat → List (String × String))
    (queries : List String) (nResults : Nat) : List (String × String) :=
  queries.foldl (fun acc q =>
    (store q nResults).foldl (fun acc2 r =>
      if r.1 ≠ "" ∧ ¬((acc2.map Prod.fst).contains r.1) then acc2 ++ [r] else acc2)
      acc) []

def dedupKeep (l : List String) : List String :=
  l.foldl (fun acc x => if acc.contains x then acc else acc ++ [x]) []

/- _build_provenance -/
def buildProvenance (sheet : ProductFactSheet) : List (String × List String) :=
  [ ("product_name", []), ("product_category", []), ("primary_use_cases", []),
    ("target_buyer_roles", []),
    ("key_specs", dedupKeep (sheet.key_specs.flatMap (fun s => s.evidence_chunk_ids))),
    ("constraints", dedupKeep (sheet.constraints.flatMap (fun c => c.evidence_chunk_ids))),
    ("differentiators",
      dedupKeep (sheet.differentiators.flatMap (fun d => d.evidence_chunk_ids))),
    ("certifications_standards", []), ("integrations_interfaces", []),
    ("maintenance_calibration", []), ("source_coverage_summary", []) ]

/- extract_product_fact_sheet: retrieval, one completion call, then the
   bounded repair loop; the completion service, json.loads and the Jinja
   prompt templates are external collaborators passed in. -/
def extractProductFactSheet (store : String → Nat → List (String × String))
    (complete : String → String) (loads : String → Except String Json)
    (renderExtract : List (String × String) → String) (renderFix : String → String)
    (maxRetries : Nat := maxRetriesDefault) :
    Except ExtractFailure (ProductFactSheet × List (String × List String)) :=
  let chunks := chunksFromStore store sectionQueries retrieveNResults
  let raw := complete (renderExtract chunks)
  (extractRepairLoop loads complete renderFix maxRetries maxRetries raw).map
    (fun sheet => (sheet, buildProvenance sheet))

/- ----------------------------------------------------------------- -/
/- src/pda/verifier/verifier.py (factsheet pipeline). -/

structure VerifierResult where
  blocked_issues : List String := []
  warnings : List String := []
  suggested_queries : List String := []
deriving DecidableEq, Repr

def pyUpperChar (c : Char) : Char :=
  if 'a' ≤ c && c ≤ 'z' then Char.ofNat (c.toNat - 32) else c

def pyUpper (s : Str) : Str := s.map pyUpperChar

def stripLower (s : String) : String := String.mk (pyLower (pyStrip s.data))

/- Python repr() for the plain strings that occur here. -/
def pyRepr (s : String) : String :=
  if s.data.contains '\'' && !(s.data.contains '"') then "\"" ++ s ++ "\""
  else "'" ++ s ++ "'"

def joinComma : List String → String
  | [] => ""
  | [x] => x
  | x :: rest => x ++ ", " ++ joinComma rest

/- _check_contradictory_specs_factsheet: group key_specs by normalized
   name (insertion order), flag names whose value+unit+conditions strings
   are not all identical. -/
def contradictionIssueFor (sheet : ProductFactSheet) (name : String) : List String :=
  let specs := sheet.key_specs.filter (fun s => stripLower s.name = name)
  let values := specs.map (fun s =>
    String.mk (pyStrip (s.value ++ s.unit ++ s.conditions).data))
  if (dedupKeep values).length > 1 then
    let shown := joinComma ((values.take 5).map pyRepr)
    [s!"Contradictory spec '{name}': multiple values ({shown})"]
  else []

def checkContradictorySpecsFactsheet (sheet : ProductFactSheet) : List String :=
  let names := sheet.key_specs.foldl (fun acc s =>
    let n := stripLower s.name
    if n = "" then acc else if acc.contains n then acc else acc ++ [n]) []
  names.flatMap (contradictionIssueFor sheet)

/- re.search(r"^-?\d+(\.\d+)?\s*[-–]\s*-?\d+", v) -/
def valueLooksRange (v : Str) : Bool :=
  !((pSeq (pOpt (pLit (['-'])))
      (pSeq (pPlusClass pyIsDigit)
        (pSeq (pOpt (pSeq (pLit (['.'])) (pPlusClass pyIsDigit)))
          (pSeq (pStarClass pyIsSpace)
            (pSeq (pClass (fun c => c = '-' || c = '–'))
              (pSeq (pStarClass pyIsSpace)
                (pSeq (pOpt (pLit (['-']))) (pClass pyIsDigit)))))))) v).isEmpty

/- re.search(r"^-?\d+(\.\d+)?\s*$", v) -/
def valueLooksBareNumber (v : Str) : Bool :=
  !((pSeq (pOpt (pLit (['-'])))
      (pSeq (pPlusClass pyIsDigit)
        (pSeq (pOpt (pSeq (pLit (['.'])) (pPlusClass pyIsDigit)))
          (pSeq (pStarClass pyIsSpace) (pAssert (fun s => s.isEmpty)))))) v).isEmpty

def unitSuggestiveNames : List String :=
  [ "weight", "dimension", "length", "width", "height", "temperature",
    "pressure", "speed", "voltage", "current", "power", "capacity" ]

/- _check_missing_units_conditions_factsheet -/
def checkMissingUnitsConditionsFactsheet : Nat → List KeySpec → List String
  | _, [] => []
  | i, spec :: rest =>
    let tail := checkMissingUnitsConditionsFactsheet (i + 1) rest
    if spec.value = "" ∨ spec.name = "" then tail
    else
      let valStr := pyStrip spec.value.data
      if valueLooksRange valStr || valueLooksBareNumber valStr then
        if spec.unit = "" ∧ spec.conditions = "" then
          let nameLower := pyLower spec.name.data
          if unitSuggestiveNames.any (fun u => isSubstr u.data nameLower) then
            let n := spec.name
            let v := spec.value
            (s!"key_specs[{i}] '{n}': value '{v}' likely needs unit or conditions") :: tail
          else tail
        else tail
      else tail

/- _suggest_retrieval_queries_factsheet -/
def isNotFoundScalar (s : String) : Bool :=
  s = "" || String.mk (pyUpper (pyStrip s.data)) = "NOT_FOUND"

def suggestRetrievalQueriesFactsheet (sheet : ProductFactSheet) : List String :=
  (if isNotFoundScalar sheet.product_name then ["product name and model identifier"] else []) ++
  (if isNotFoundScalar sheet.product_category then ["product category and market positioning"] else []) ++
  (if sheet.primary_use_cases.isEmpty then ["primary use cases and applications"] else []) ++
  (if sheet.target_buyer_roles.isEmpty then ["target buyer roles and personas"] else []) ++
  (if sheet.key_specs.isEmpty then ["key technical specifications dimensions"] else []) ++
  (if sheet.constraints.isEmpty then ["constraints limitations restrictions"] else []) ++
  (if sheet.differentiators.isEmpty then ["differentiators unique selling points"] else []) ++
  (if sheet.certifications_standards.isEmpty then ["certifications standards compliance"] else []) ++
  (if sheet.integrations_interfaces.isEmpty then ["integrations interfaces APIs connectivity"] else []) ++
  (if sheet.maintenance_calibration.isEmpty then ["maintenance calibration service requirements"] else [])

/- The evidence-completeness blocks of run_verifier_factsheet. -/
def specEvidenceMsg (i : Nat) (spec : KeySpec) : String :=
  let n := spec.name
  let v := spec.value
  s!"key_specs[{i}] '{n}': '{v}' has no evidence_chunk_ids"

def constraintEvidenceMsg (i : Nat) : String :=
  s!"constraints[{i}] has statement but no evidence_chunk_ids"

def differentiatorEvidenceMsg (i : Nat) : String :=
  s!"differentiators[{i}] has statement but no evidence_chunk_ids"

def specEvidenceIssues : Nat → List KeySpec → List String
  | _, [] => []
  | i, spec :: rest =>
    let tail := specEvidenceIssues (i + 1) rest
    if (spec.name ≠ "" ∨ spec.value ≠ "") ∧ spec.evidence_chunk_ids = [] then
      specEvidenceMsg i spec :: tail
    else tail

def constraintEvidenceIssues : Nat → List Constraint → List String
  | _, [] => []
  | i, c :: rest =>
    let tail := constraintEvidenceIssues (i + 1) rest
    if c.statement ≠ "" ∧ c.evidence_chunk_ids = [] then
      constraintEvidenceMsg i :: tail
    else tail

def differentiatorEvidenceIssues : Nat → List Differentiator → List String
  | _, [] => []
  | i, d :: rest =>
    let tail := differentiatorEvidenceIssues (i + 1) rest
    if d.statement ≠ "" ∧ d.evidence_chunk_ids = [] then
      differentiatorEvidenceMsg i :: tail
    else tail

/- run_verifier_factsheet -/
def runVerifierFactsheet (sheet : ProductFactSheet) : VerifierResult :=
  { blocked_issues :=
      specEvidenceIssues 0 sheet.key_specs ++
      constraintEvidenceIssues 0 sheet.constraints ++
      differentiatorEvidenceIssues 0 sheet.differentiators ++
      checkContradictorySpecsFactsheet sheet,
    warnings := checkMissingUnitsConditionsFactsheet 0 sheet.key_specs,
    suggested_queries := suggestRetrievalQueriesFactsheet sheet }

/- ----------------------------------------------------------------- -/
/- src/pda/content_pack/web_content_generator.py: inline citations and
   their resolution into evidence records. -/

/- _extract_inline_cites: re.findall returns the bracketed group. -/
def extractInlineCites (text : String) : List String :=
  (findAllMatches matchCiteAt text.data).map (fun m => String.mk ((m.drop 1).dropLast))

structure ChunkMeta where
  source_file : String := ""
  page_number : Option Int := none
deriving DecidableEq, Repr

/- `pages = [page] if page and page != -1 else []`: None, 0 and -1 all
   yield no page list. -/
def pagesOf : Option Int → List Int
  | none => []
  | some p => if p ≠ 0 ∧ p ≠ -1 then [p] else []

/- _to_evidence_refs: every non-empty cited id yields a record;
   meta_map.get(cid, \x7b\x7d) substitutes empty metadata when absent. -/
def toEvidenceRefs (citedIds : List String) (metaMap : List (String × ChunkMeta)) :
    List EvidenceRef :=
  match citedIds with
  | [] => []
  | cid :: rest =>
    if cid = "" then toEvidenceRefs rest metaMap
    else
      let meta := (metaMap.lookup cid).getD {}
      { chunk_ids := [cid], source_file := meta.source_file,
        page_numbers := pagesOf meta.page_number,
        verbatim_excerpt := "" } :: toEvidenceRefs rest metaMap

/- ================================================================= -/
/- Concrete fixtures used by the scenario theorems. -/

/- Scenario A fact sheet: one grounded key spec Weight = 350 g. -/
def weightSheet : ProductFactSheet :=
  { key_specs :=
      [{ name := "Weight", value := "350", unit := "g", conditions := "",
         evidence_chunk_ids := ["c1"] }] }

def weightDraftPass : WebContentDrafts :=
  { landing_page := { problem_statement := "Weight: 350 g" } }

def weightDraftFail : WebContentDrafts :=
  { landing_page := { problem_statement := "Weight: 500 g" } }

/-- C1: with a fact sheet whose only key spec is Weight = 350 g (non-empty
evidence), the guardrail pass leaves a draft text field "Weight: 350 g"
unchanged with no warnings, while "Weight: 500 g" has the matched numeric
snippet "500 g" replaced by the fixed placeholder "[refer to datasheet]"
and produces exactly one warning, of category ungrounded_numeric_spec. -/
theorem c1_numeric_guardrail_scenario :
    weightSheet.key_specs.all (fun s => !s.evidence_chunk_ids.isEmpty) = true ∧
    (runDraftGuardrails weightDraftPass weightSheet "").1 = weightDraftPass ∧
    (runDraftGuardrails weightDraftPass weightSheet "").2 = [] ∧
    (runDraftGuardrails weightDraftFail weightSheet "").1.landing_page.problem_statement
      = "Weight: [refer to datasheet]" ∧
    ((runDraftGuardrails weightDraftFail weightSheet "").2.map
      (fun w => (w.category, w.original_snippet, w.replacement)))
      = [("ungrounded_numeric_spec", "500 g", "[refer to datasheet]")] := by
  decide

def overshadowedDraft : WebContentDrafts :=
  { landing_page := { problem_statement := "It weighs 50 g" } }

/-- C10: "50 g" is a numeric+unit match whose space-stripped normal form
"50g" is a contiguous substring of the allowed string "350g" built from
the fact sheet's only key spec, so although 50 differs from every
key-spec value, the numeric guardrail scan leaves it unchanged and
records no warning. -/
theorem c10_substring_grounding_accepts_differing_value :
    weightSheet.key_specs.map (fun s => s.value) = ["350"] ∧
    "50" ∉ weightSheet.key_specs.map (fun s => s.value) ∧
    findAllMatches matchNumericAt (("It weighs 50 g").data) = [("50 g").data] ∧
    numericIsGrounded (("50 g").data) (buildAllowedNumericSet weightSheet) = true ∧
    (runDraftGuardrails overshadowedDraft weightSheet "").1 = overshadowedDraft ∧
    (runDraftGuardrails overshadowedDraft weightSheet "").2 = [] := by
  decide

/- The guardrail pass is NOT idempotent: str.replace(word, repl, 1) can
   hit an earlier substring occurrence of a flagged proper noun, leaving
   the matched occurrence in place for the next run to flag again. -/
def brandDrafts : WebContentDrafts :=
  { comparisons := [{ dimensions := [{ generic_alternative := "xAcme Acme" }] }] }

def brandRun1 : WebContentDrafts × List GuardrailWarning :=
  runDraftGuardrails brandDrafts {} ""

def brandRun2 : WebContentDrafts × List GuardrailWarning :=
  runDraftGuardrails brandRun1.1 {} ""

/-- C2: running run_draft_guardrails a second time on the drafts produced
by a first run (same fact sheet, same source text) is NOT warning-free:
on generic_alternative "xAcme Acme" the first run's competitor-brand
replacement hits the substring "Acme" inside "xAcme" instead of the
matched token, so the second run still finds "Acme", emits one more
competitor_brand warning and changes the text again. -/
theorem c2_second_guardrail_run_emits_new_warning :
    (brandRun1.1.comparisons.map (fun c => c.dimensions.map
        (fun d => d.generic_alternative)))
      = [["x[competitor name removed] Acme"]] ∧
    (brandRun1.2.map (fun w => (w.category, w.original_snippet)))
      = [("competitor_brand", "Acme")] ∧
    (brandRun2.2.map (fun w => (w.category, w.original_snippet)))
      = [("competitor_brand", "Acme")] ∧
    brandRun2.2.length = 1 ∧
    (brandRun2.1.comparisons.map (fun c => c.dimensions.map
        (fun d => d.generic_alternative)))
      = [["x[competitor name removed] [competitor name removed]"]] := by
  decide

/- Concrete collaborators for the extractor run in which the completion
   service's third output is the valid-JSON array "[]". -/
def arrayLoads : String → Except String Json := fun s =>
  if s = "[]" then .ok (Json.arr [])
  else .error ("Expecting value: line 1 column 1 (char 0)")

def arrayRenderExtract : List (String × String) → String := fun _ => "extract-prompt"

def arrayRenderFix : String → String := fun s => "fix-prompt:" ++ s

def arrayComplete : String → String := fun p =>
  if p = "extract-prompt" then "not json at all"
  else if p = "fix-prompt:not json at all" then "still not json"
  else if p = "fix-prompt:still not json" then "[]"
  else ""

def arrayStore : String → Nat → List (String × String) := fun _ _ => []

/-- C5: when the completion service's final repair-loop output is the
valid JSON array "[]", _validate_fact_sheet's data.get(...) raises
AttributeError, which the loop's except (JSONDecodeError, TypeError,
KeyError) clause does not catch: after max_retries = 2 fix prompts the
extractor aborts with the uncaught AttributeError instead of the
documented repair-loop-exhausted error, so a normalization failure is
neither retried nor reported as ExtractionError. -/
theorem c5_array_output_escapes_repair_loop :
    validateFactSheet (Json.arr []) = .error .attributeError ∧
    extractProductFactSheet arrayStore arrayComplete arrayLoads
        arrayRenderExtract arrayRenderFix 2
      = .error (.uncaught .attributeError) := by
  exact ⟨rfl, rfl⟩

/- A file-store state whose only job under key "k" has already reached a
   terminal status. -/
def terminalJob : GenerationJob :=
  { job_id := "job1", product_id := "p1", idempotency_key := "k",
    status := .succeeded, progress := 100 }

def terminalFileState : FileJobStoreState :=
  { index := [("k", "job1")], jobs := [("job1", terminalJob)] }

/-- C4 counterexample: FileJobStore.get_by_idempotency_key has no status
filter: with every job recorded under key "k" already SUCCEEDED, it still
returns that job, contradicting the claim that (for each store
implementation) a job is returned only while QUEUED or RUNNING. -/
theorem c4_file_store_returns_terminal_job :
    terminalFileState.jobs.all (fun p => p.2.status.isTerminal) = true ∧
    fileGetByIdempotencyKey terminalFileState "k" = some terminalJob ∧
    terminalJob.status = .succeeded := by
  exact ⟨rfl, rfl, rfl⟩

/- A Postgres row whose drafts are populated, updated by a job value
   whose drafts field is None. -/
def pgStoredRow : GenerationJob :=
  { job_id := "j1", product_id := "p1", idempotency_key := "k",
    status := .running, progress := 30,
    drafts := some [("landing_page", Json.str ("old"))] }

def pgClearingJob : GenerationJob :=
  { job_id := "j1", product_id := "p1", idempotency_key := "k",
    status := .succeeded, progress := 100, drafts := none }

/-- C9 counterexample: PostgresJobStore.update writes drafts through
COALESCE(new, drafts), so an update carrying drafts = None leaves the
previously stored drafts in place; the stored record's mutable fields do
not all equal the passed job's fields. -/
theorem c9_pg_update_does_not_clear_drafts :
    pgClearingJob.drafts = none ∧
    (pgGet (pgUpdate 7 [pgStoredRow] pgClearingJob) "j1").map (fun r => r.drafts)
      = some (some [("landing_page", Json.str ("old"))]) := by
  exact ⟨rfl, rfl⟩

/-- C8 counterexample: an inline citation token [pdf-x] scanned out of
generated text whose chunk id is absent from the retrieval-context
metadata map still produces an evidence record (with empty source
metadata) — a dangling citation, contradicting the claim that no
evidence record is produced for an id absent from the context. -/
theorem c8_dangling_citation_record :
    extractInlineCites ("see [pdf-x]") = ["pdf-x"] ∧
    (([] : List (String × ChunkMeta)).lookup ("pdf-x")) = none ∧
    toEvidenceRefs (extractInlineCites ("see [pdf-x]")) []
      = [{ chunk_ids := ["pdf-x"], source_file := "", page_numbers := [],
           verbatim_excerpt := "" }] := by
  decide

/- ================================================================= -/
/- Store lemmas. -/

theorem lookup_setAssoc_self {α : Type} (l : List (String × α)) (k : String) (v : α) :
    (setAssoc l k v).lookup k = some v := by
  induction l with
  | nil => simp [setAssoc, List.lookup]
  | cons p rest ih =>
    by_cases hp : p.1 = k
    · simp [setAssoc, hp, List.lookup]
    · have hne : (k == p.1) = false := by
        simp only [beq_eq_false_iff_ne, ne_eq]
        exact fun hk => hp hk.symm
      simp [setAssoc, hp, List.lookup, hne, ih]

theorem pgUpdateRow_job_id (now : Nat) (j r : GenerationJob) :
    (pgUpdateRow now j r).job_id = r.job_id := by
  unfold pgUpdateRow
  split <;> rfl

theorem pgFoldl_some_isSome (l : List GenerationJob) (b : GenerationJob) :
    (l.foldl pgPickLatest (some b)).isSome = true := by
  induction l generalizing b with
  | nil => rfl
  | cons r rest ih =>
    simp only [List.foldl]
    unfold pgPickLatest
    split
    · exact ih r
    · split
      · exact ih r
      · exact ih _

theorem pgFoldl_mem (l : List GenerationJob) (acc : Option GenerationJob)
    (j : GenerationJob) (h : l.foldl pgPickLatest acc = some j) :
    acc = some j ∨ j ∈ l := by
  induction l generalizing acc with
  | nil => exact Or.inl h
  | cons r rest ih =>
    simp only [List.foldl] at h
    rcases ih (pgPickLatest acc r) h with hstep | hmem
    · unfold pgPickLatest at hstep
      match acc, hstep with
      | none, hstep =>
        exact Or.inr (by simp [List.mem_cons, Option.some.injEq] at hstep ⊢; exact Or.inl hstep.symm)
      | some b, hstep =>
        by_cases hc : r.created_at > b.created_at
        · simp [hc] at hstep
          exact Or.inr (by simp [hstep])
        · simp [hc] at hstep
          exact Or.inl (by simp [hstep])
    · exact Or.inr (List.mem_cons_of_mem r hmem)

theorem pgGetByKey_some_inflight (rows : List GenerationJob) (key : String)
    (j : GenerationJob) (h : pgGetByIdempotencyKey rows key = some j) :
    j.idempotency_key = key ∧
      (j.status = JobStatus.queued ∨ j.status = JobStatus.running) := by
  unfold pgGetByIdempotencyKey at h
  rcases pgFoldl_mem _ none j h with habs | hmem
  · cases habs
  · have := List.of_mem_filter hmem
    simpa [pgKeyInFlight] using this

theorem pgGetByKey_none_of_filter_nil (rows : List GenerationJob) (key : String)
    (h : rows.filter (pgKeyInFlight key) = []) :
    pgGetByIdempotencyKey rows key = none := by
  unfold pgGetByIdempotencyKey
  rw [h]
  rfl

theorem pgGetByKey_filter_nil (rows : List GenerationJob) (key : String)
    (h : pgGetByIdempotencyKey rows key = none) :
    rows.filter (pgKeyInFlight key) = [] := by
  unfold pgGetByIdempotencyKey at h
  cases hf : rows.filter (pgKeyInFlight key) with
  | nil => rfl
  | cons r rest =>
    rw [hf] at h
    simp only [List.foldl] at h
    have : (rest.foldl pgPickLatest (pgPickLatest none r)).isSome = true :=
      pgFoldl_some_isSome rest r
    rw [h] at this
    cases this

theorem pgGet_some_job_id (rows : List GenerationJob) (jid : String)
    (r : GenerationJob) (h : pgGet rows jid = some r) : r.job_id = jid := by
  unfold pgGet at h
  have hmem : r ∈ rows.filter (fun x => x.job_id = jid) := by
    cases hf : rows.filter (fun x => x.job_id = jid) with
    | nil => rw [hf] at h; cases h
    | cons a rest =>
      rw [hf] at h
      have ha : a = r := by simpa using h
      rw [← ha]
      exact List.mem_cons_self _ _
  simpa using List.of_mem_filter hmem

theorem pgGet_update (now : Nat) (rows : List GenerationJob) (j r : GenerationJob)
    (h : pgGet rows j.job_id = some r) :
    pgGet (pgUpdate now rows j) j.job_id = some (pgUpdateRow now j r) := by
  induction rows with
  | nil => cases h
  | cons x rest ih =>
    by_cases hx : x.job_id = j.job_id
    · have hr : r = x := by
        unfold pgGet at h
        simp [List.filter_cons, hx] at h
        exact h.symm
      subst hr
      unfold pgGet pgUpdate at *
      simp [List.filter_cons, hx, pgUpdateRow_job_id]
    · have hstep : pgGet rest j.job_id = some r := by
        unfold pgGet at h ⊢
        simpa [List.filter_cons, hx] using h
      have := ih hstep
      unfold pgGet pgUpdate at this ⊢
      simpa [List.filter_cons, hx, pgUpdateRow_job_id] using this

/-- C4 (amended): the Postgres store's get_by_idempotency_key returns a
job only if its status is QUEUED or RUNNING and returns none when every
job recorded under the key is terminal; the file store, by contrast,
returns whatever job its key index points to, with no status filter, so
its callers must re-check the returned status themselves. -/
theorem c4_get_by_idempotency_key_semantics :
    (∀ (rows : List GenerationJob) (key : String) (j : GenerationJob),
      pgGetByIdempotencyKey rows key = some j →
      j.idempotency_key = key ∧
        (j.status = JobStatus.queued ∨ j.status = JobStatus.running)) ∧
    (∀ (rows : List GenerationJob) (key : String),
      (∀ j ∈ rows, j.idempotency_key = key → j.status.isTerminal = true) →
      pgGetByIdempotencyKey rows key = none) ∧
    (∀ (s : FileJobStoreState) (key jid : String) (j : GenerationJob),
      s.index.lookup key = some jid → jid ≠ "" → s.jobs.lookup jid = some j →
      fileGetByIdempotencyKey s key = some j) := by
  refine ⟨fun rows key j h => pgGetByKey_some_inflight rows key j h, ?_, ?_⟩
  · intro rows key hall
    apply pgGetByKey_none_of_filter_nil
    rw [List.filter_eq_nil_iff]
    intro j hj
    by_cases hk : j.idempotency_key = key
    · have hterm := hall j hj hk
      cases hst : j.status <;>
        simp [JobStatus.isTerminal, hst] at hterm ⊢ <;>
        simp [pgKeyInFlight, hst, hk]
    · simp [pgKeyInFlight, hk]
  · intro s key jid j h1 h2 h3
    simp [fileGetByIdempotencyKey, fileGet, h1, h2, h3]

def inflightJob : GenerationJob :=
  { job_id := "q1", product_id := "p1", idempotency_key := "k",
    status := .queued }

/-- Witness for c4_get_by_idempotency_key_semantics at concrete stores. -/
theorem c4_get_by_idempotency_key_semantics_witness :
    (inflightJob.idempotency_key = "k" ∧
      (inflightJob.status = JobStatus.queued ∨
        inflightJob.status = JobStatus.running)) ∧
    pgGetByIdempotencyKey [terminalJob] "k" = none ∧
    fileGetByIdempotencyKey terminalFileState "k" = some terminalJob :=
  ⟨c4_get_by_idempotency_key_semantics.1 [inflightJob] "k" inflightJob rfl,
   c4_get_by_idempotency_key_semantics.2.1 [terminalJob] "k"
     (fun j hj _ => by
       rcases List.mem_singleton.mp hj with h
       rw [h]
       rfl),
   c4_get_by_idempotency_key_semantics.2.2 terminalFileState "k" "job1" terminalJob
     rfl (by decide) rfl⟩

/-- C9 (amended): update(job) is last-write-wins for the file store — the
stored record afterwards equals the passed job, including cleared/None
fields — while the Postgres store overwrites status, progress and
error_message unconditionally but keeps the previously stored drafts and
metadata whenever the passed job's corresponding field is None or empty
(COALESCE semantics). -/
theorem c9_update_overwrite_semantics :
    (∀ (s : FileJobStoreState) (j : GenerationJob),
      fileGet (fileUpdate s j) j.job_id = some j) ∧
    (∀ (now : Nat) (rows : List GenerationJob) (j r : GenerationJob),
      pgGet rows j.job_id = some r →
      pgGet (pgUpdate now rows j) j.job_id =
        some { r with status := j.status, progress := j.progress,
                      error_message := j.error_message,
                      drafts := if optDictTruthy j.drafts then j.drafts else r.drafts,
                      metadata := if optDictTruthy j.metadata then j.metadata else r.metadata,
                      updated_at := now }) := by
  constructor
  · intro s j
    exact lookup_setAssoc_self s.jobs j.job_id j
  · intro now rows j r h
    have hid : r.job_id = j.job_id := pgGet_some_job_id rows j.job_id r h
    have := pgGet_update now rows j r h
    rwa [pgUpdateRow, if_pos hid] at this

/-- Witness for c9_update_overwrite_semantics at a concrete store. -/
theorem c9_update_overwrite_semantics_witness :
    fileGet (fileUpdate terminalFileState pgClearingJob) pgClearingJob.job_id
      = some pgClearingJob ∧
    pgGet (pgUpdate 3 [pgStoredRow] pgStoredRow) pgStoredRow.job_id =
      some { pgStoredRow with
               status := pgStoredRow.status, progress := pgStoredRow.progress,
               error_message := pgStoredRow.error_message,
               drafts := if optDictTruthy pgStoredRow.drafts then pgStoredRow.drafts
                 else pgStoredRow.drafts,
               metadata := if optDictTruthy pgStoredRow.metadata then pgStoredRow.metadata
                 else pgStoredRow.metadata,
               updated_at := 3 } :=
  ⟨c9_update_overwrite_semantics.1 terminalFileState pgClearingJob,
   c9_update_overwrite_semantics.2 3 [pgStoredRow] pgStoredRow pgStoredRow rfl⟩

/-- C3: with all request validation passing and no in-flight job under
the request's idempotency key, a first start-generation call creates a
QUEUED job and returns its id; a second call with the same product and
parameters (hence the same key) while that job is still QUEUED returns
the first job's id and leaves the store unchanged — no second job record
is created.  Proved for both store implementations. -/
theorem c3_duplicate_request_returns_existing_job
    (h : String → String) (req : GenerateWebContentRequest)
    (productId newId1 newId2 : String) (now1 now2 : Nat)
    (rowsPg : List GenerationJob) (fs : FileJobStoreState)
    (hid : newId1 ≠ "")
    (hpg : pgGetByIdempotencyKey rowsPg (idempotencyKey h productId req) = none)
    (hfs : fileGetByIdempotencyKey fs (idempotencyKey h productId req) = none) :
    (let r1 := generateWebContentEndpoint (pgOps now1) h {} newId1 now1 rowsPg
       productId req
     let r2 := generateWebContentEndpoint (pgOps now2) h {} newId2 now2 r1.2
       productId req
     r1.1 = EndpointResponse.jobResponse newId1 JobStatus.queued ∧
       r2.1 = EndpointResponse.jobResponse newId1 JobStatus.queued ∧ r2.2 = r1.2) ∧
    (let r1 := generateWebContentEndpoint fileOps h {} newId1 now1 fs productId req
     let r2 := generateWebContentEndpoint fileOps h {} newId2 now2 r1.2 productId req
     r1.1 = EndpointResponse.jobResponse newId1 JobStatus.queued ∧
       r2.1 = EndpointResponse.jobResponse newId1 JobStatus.queued ∧ r2.2 = r1.2) := by
  constructor
  · have e2 : pgGetByIdempotencyKey
        (pgCreate now1 rowsPg
          { job_id := newId1, product_id := productId,
            idempotency_key := idempotencyKey h productId req,
            status := .queued, progress := 0, params := paramsOfRequest req,
            created_at := now1, updated_at := now1 })
        (idempotencyKey h productId req)
        = some { job_id := newId1, product_id := productId,
                 idempotency_key := idempotencyKey h productId req,
                 status := .queued, progress := 0, params := paramsOfRequest req,
                 created_at := now1, updated_at := now1 } := by
      unfold pgCreate pgGetByIdempotencyKey
      rw [List.filter_append, pgGetByKey_filter_nil rowsPg _ hpg]
      simp [pgKeyInFlight, pgPickLatest]
    simp [generateWebContentEndpoint, pgOps, hpg, e2]
  · have e2 : fileGetByIdempotencyKey
        (fileCreate fs
          { job_id := newId1, product_id := productId,
            idempotency_key := idempotencyKey h productId req,
            status := .queued, progress := 0, params := paramsOfRequest req,
            created_at := now1, updated_at := now1 })
        (idempotencyKey h productId req)
        = some { job_id := newId1, product_id := productId,
                 idempotency_key := idempotencyKey h productId req,
                 status := .queued, progress := 0, params := paramsOfRequest req,
                 created_at := now1, updated_at := now1 } := by
      unfold fileCreate fileGetByIdempotencyKey fileGet
      simp [lookup_setAssoc_self, hid]
    simp [generateWebContentEndpoint, fileOps, hfs, e2]

/-- Witness for c3_duplicate_request_returns_existing_job on empty stores. -/
theorem c3_duplicate_request_returns_existing_job_witness :
    (let r1 := generateWebContentEndpoint (pgOps 0) (fun s => s) {} "j1" 0 []
       "p" {}
     let r2 := generateWebContentEndpoint (pgOps 1) (fun s => s) {} "j2" 1 r1.2
       "p" {}
     r1.1 = EndpointResponse.jobResponse "j1" JobStatus.queued ∧
       r2.1 = EndpointResponse.jobResponse "j1" JobStatus.queued ∧ r2.2 = r1.2) ∧
    (let r1 := generateWebContentEndpoint fileOps (fun s => s) {} "j1" 0 {} "p" {}
     let r2 := generateWebContentEndpoint fileOps (fun s => s) {} "j2" 1 r1.2 "p" {}
     r1.1 = EndpointResponse.jobResponse "j1" JobStatus.queued ∧
       r2.1 = EndpointResponse.jobResponse "j1" JobStatus.queued ∧ r2.2 = r1.2) :=
  c3_duplicate_request_returns_existing_job (fun s => s) {} "p" "j1" "j2" 0 1 [] {}
    (by decide) rfl rfl

/-- C6: the background driver exits immediately with no update when at
entry the job is missing or already terminal; and over every execution,
the sequence of statuses it writes never moves from a terminal status
(SUCCEEDED/FAILED) back to a non-terminal one — a terminal write is only
ever followed by terminal writes, so an execution's updates can only take
the shape QUEUED→RUNNING→terminal. -/
theorem c6_driver_never_reenters_terminal {σ : Type}
    (ops : JobStoreOps σ) (env : DriverEnv) (st : σ) (jobId productId : String) :
    (ops.getJob st jobId = none →
      runGenerationTask ops env st jobId productId = (st, [])) ∧
    (∀ j, ops.getJob st jobId = some j → j.status.isTerminal = true →
      runGenerationTask ops env st jobId productId = (st, [])) ∧
    noTerminalReentry
        ((runGenerationTask ops env st jobId productId).2.map (fun u => u.status))
      = true := by
  refine ⟨?_, ?_, ?_⟩
  · intro h
    unfold runGenerationTask
    rw [h]
  · intro j hj hterm
    have hnot : ¬(j.status = JobStatus.queued ∨ j.status = JobStatus.running) := by
      intro hcon
      rcases hcon with h1 | h1 <;> rw [h1] at hterm <;>
        simp [JobStatus.isTerminal] at hterm
    unfold runGenerationTask
    rw [hj]
    simp [hnot]
  · unfold runGenerationTask
    cases hget : ops.getJob st jobId with
    | none => rfl
    | some j =>
      by_cases hin : (j.status = JobStatus.queued ∨ j.status = JobStatus.running)
      · rcases env with ⟨pe, rl, vs, fsx, gen⟩
        cases pe
        · simp [hin, noTerminalReentry, JobStatus.isTerminal]
        · cases rl with
          | error e =>
            cases e <;> simp [hin, noTerminalReentry, JobStatus.isTerminal]
          | ok u =>
            cases vs with
            | error e => simp [hin, noTerminalReentry, JobStatus.isTerminal]
            | ok u2 =>
              cases fsx with
              | error e => simp [hin, noTerminalReentry, JobStatus.isTerminal]
              | ok u3 =>
                cases gen with
                | error g =>
                  cases g <;> simp [hin, noTerminalReentry, JobStatus.isTerminal]
                | ok dm => simp [hin, noTerminalReentry, JobStatus.isTerminal]
      · simp [hin, noTerminalReentry]

/-- Witness for c6_driver_never_reenters_terminal: a terminal job at entry
yields no updates, and a successful run's status writes never regress. -/
theorem c6_driver_never_reenters_terminal_witness :
    runGenerationTask fileOps {} terminalFileState "job1" "p1"
      = (terminalFileState, []) ∧
    noTerminalReentry
        ((runGenerationTask fileOps {} terminalFileState "job1" "p1").2.map
          (fun u => u.status))
      = true :=
  ⟨(c6_driver_never_reenters_terminal fileOps {} terminalFileState "job1" "p1").2.1
      terminalJob rfl rfl,
   (c6_driver_never_reenters_terminal fileOps {} terminalFileState "job1" "p1").2.2⟩

/- ================================================================= -/
/- Verifier lemmas (C7). -/

theorem specEvidenceIssues_mem :
    ∀ (l : List KeySpec) (start i : Nat) (h : i < l.length),
      ((l.get ⟨i, h⟩).name ≠ "" ∨ (l.get ⟨i, h⟩).value ≠ "") →
      (l.get ⟨i, h⟩).evidence_chunk_ids = [] →
      specEvidenceMsg (start + i) (l.get ⟨i, h⟩) ∈ specEvidenceIssues start l := by
  intro l
  induction l with
  | nil => intro start i h; exact absurd h (Nat.not_lt_zero i)
  | cons spec rest ih =>
    intro start i h hcond hev
    cases i with
    | zero =>
      simp only [List.get] at hcond hev ⊢
      unfold specEvidenceIssues
      rw [if_pos ⟨hcond, hev⟩, Nat.add_zero]
      exact List.mem_cons_self _ _
    | succ i' =>
      have hlt : i' < rest.length := Nat.lt_of_succ_lt_succ h
      have hmem := ih (start + 1) i' hlt (by simpa using hcond) (by simpa using hev)
      have harith : start + 1 + i' = start + (i' + 1) := by omega
      rw [harith] at hmem
      simp only [List.get] at hmem ⊢
      unfold specEvidenceIssues
      split
      · exact List.mem_cons_of_mem _ hmem
      · exact hmem

theorem constraintEvidenceIssues_mem :
    ∀ (l : List Constraint) (start i : Nat) (h : i < l.length),
      (l.get ⟨i, h⟩).statement ≠ "" →
      (l.get ⟨i, h⟩).evidence_chunk_ids = [] →
      constraintEvidenceMsg (start + i) ∈ constraintEvidenceIssues start l := by
  intro l
  induction l with
  | nil => intro start i h; exact absurd h (Nat.not_lt_zero i)
  | cons c rest ih =>
    intro start i h hcond hev
    cases i with
    | zero =>
      simp only [List.get] at hcond hev ⊢
      unfold constraintEvidenceIssues
      rw [if_pos ⟨hcond, hev⟩, Nat.add_zero]
      exact List.mem_cons_self _ _
    | succ i' =>
      have hlt : i' < rest.length := Nat.lt_of_succ_lt_succ h
      have hmem := ih (start + 1) i' hlt (by simpa using hcond) (by simpa using hev)
      have harith : start + 1 + i' = start + (i' + 1) := by omega
      rw [harith] at hmem
      unfold constraintEvidenceIssues
      split
      · exact List.mem_cons_of_mem _ hmem
      · exact hmem

theorem differentiatorEvidenceIssues_mem :
    ∀ (l : List Differentiator) (start i : Nat) (h : i < l.length),
      (l.get ⟨i, h⟩).statement ≠ "" →
      (l.get ⟨i, h⟩).evidence_chunk_ids = [] →
      differentiatorEvidenceMsg (start + i) ∈ differentiatorEvidenceIssues start l := by
  intro l
  induction l with
  | nil => intro start i h; exact absurd h (Nat.not_lt_zero i)
  | cons d rest ih =>
    intro start i h hcond hev
    cases i with
    | zero =>
      simp only [List.get] at hcond hev ⊢
      unfold differentiatorEvidenceIssues
      rw [if_pos ⟨hcond, hev⟩, Nat.add_zero]
      exact List.mem_cons_self _ _
    | succ i' =>
      have hlt : i' < rest.length := Nat.lt_of_succ_lt_succ h
      have hmem := ih (start + 1) i' hlt (by simpa using hcond) (by simpa using hev)
      have harith : start + 1 + i' = start + (i' + 1) := by omega
      rw [harith] at hmem
      unfold differentiatorEvidenceIssues
      split
      · exact List.mem_cons_of_mem _ hmem
      · exact hmem

/- Scenario D fact sheet: a single populated key spec without evidence. -/
def evidencelessSheet : ProductFactSheet :=
  { key_specs := [{ name := "Weight", value := "350", unit := "g" }] }

/-- C7: for the fact sheet whose only populated item is one KeySpec with
a non-empty value and empty evidence_chunk_ids, run_verifier_factsheet
returns exactly one blocking issue and it carries the key_specs[0] field
path; in general every key spec with non-empty name/value, and every
constraint or differentiator with non-empty statement, whose
evidence_chunk_ids are empty yields its indexed blocking issue. -/
theorem c7_verifier_blocks_missing_evidence :
    (runVerifierFactsheet evidencelessSheet).blocked_issues
      = ["key_specs[0] 'Weight': '350' has no evidence_chunk_ids"] ∧
    (∀ (sheet : ProductFactSheet) (i : Nat) (h : i < sheet.key_specs.length),
      ((sheet.key_specs.get ⟨i, h⟩).name ≠ "" ∨
        (sheet.key_specs.get ⟨i, h⟩).value ≠ "") →
      (sheet.key_specs.get ⟨i, h⟩).evidence_chunk_ids = [] →
      specEvidenceMsg i (sheet.key_specs.get ⟨i, h⟩)
        ∈ (runVerifierFactsheet sheet).blocked_issues) ∧
    (∀ (sheet : ProductFactSheet) (i : Nat) (h : i < sheet.constraints.length),
      (sheet.constraints.get ⟨i, h⟩).statement ≠ "" →
      (sheet.constraints.get ⟨i, h⟩).evidence_chunk_ids = [] →
      constraintEvidenceMsg i ∈ (runVerifierFactsheet sheet).blocked_issues) ∧
    (∀ (sheet : ProductFactSheet) (i : Nat) (h : i < sheet.differentiators.length),
      (sheet.differentiators.get ⟨i, h⟩).statement ≠ "" →
      (sheet.differentiators.get ⟨i, h⟩).evidence_chunk_ids = [] →
      differentiatorEvidenceMsg i ∈ (runVerifierFactsheet sheet).blocked_issues) := by
  refine ⟨by decide, ?_, ?_, ?_⟩
  · intro sheet i h hcond hev
    have hmem := specEvidenceIssues_mem sheet.key_specs 0 i h hcond hev
    rw [Nat.zero_add] at hmem
    simp only [runVerifierFactsheet, List.mem_append]
    exact Or.inl (Or.inl (Or.inl hmem))
  · intro sheet i h hcond hev
    have hmem := constraintEvidenceIssues_mem sheet.constraints 0 i h hcond hev
    rw [Nat.zero_add] at hmem
    simp only [runVerifierFactsheet, List.mem_append]
    exact Or.inl (Or.inl (Or.inr hmem))
  · intro sheet i h hcond hev
    have hmem := differentiatorEvidenceIssues_mem sheet.differentiators 0 i h hcond hev
    rw [Nat.zero_add] at hmem
    simp only [runVerifierFactsheet, List.mem_append]
    exact Or.inl (Or.inr hmem)

/- A fact sheet violating the evidence invariant in all three item kinds. -/
def fullViolationSheet : ProductFactSheet :=
  { key_specs := [{ name := "Weight", value := "350", unit := "g" }],
    constraints := [{ statement := "Indoor use only" }],
    differentiators := [{ statement := "Lowest drift" }] }

/-- Witness for c7_verifier_blocks_missing_evidence at a concrete sheet. -/
theorem c7_verifier_blocks_missing_evidence_witness :
    specEvidenceMsg 0 (fullViolationSheet.key_specs.get ⟨0, by decide⟩)
      ∈ (runVerifierFactsheet fullViolationSheet).blocked_issues ∧
    constraintEvidenceMsg 0 ∈ (runVerifierFactsheet fullViolationSheet).blocked_issues ∧
    differentiatorEvidenceMsg 0
      ∈ (runVerifierFactsheet fullViolationSheet).blocked_issues :=
  ⟨c7_verifier_blocks_missing_evidence.2.1 fullViolationSheet 0 (by decide)
      (by decide) (by decide),
   c7_verifier_blocks_missing_evidence.2.2.1 fullViolationSheet 0 (by decide)
      (by decide) (by decide),
   c7_verifier_blocks_missing_evidence.2.2.2 fullViolationSheet 0 (by decide)
      (by decide) (by decide)⟩

/- ================================================================= -/
/- Citation resolution lemmas (C8). -/

theorem toEvidenceRefs_length (ids : List String) (metaMap : List (String × ChunkMeta)) :
    (toEvidenceRefs ids metaMap).length = (ids.filter (fun c => c ≠ "")).length := by
  induction ids with
  | nil => rfl
  | cons x rest ih =>
    by_cases hx : x = ""
    · simp [toEvidenceRefs, List.filter_cons, hx, ih]
    · simp [toEvidenceRefs, List.filter_cons, hx, ih]

theorem toEvidenceRefs_mem (ids : List String) (metaMap : List (String × ChunkMeta))
    (cid : String) (hmem : cid ∈ ids) (hne : cid ≠ "") :
    ({ chunk_ids := [cid],
       source_file := ((metaMap.lookup cid).getD {}).source_file,
       page_numbers := pagesOf ((metaMap.lookup cid).getD {}).page_number,
       verbatim_excerpt := "" } : EvidenceRef) ∈ toEvidenceRefs ids metaMap := by
  induction ids with
  | nil => cases hmem
  | cons x rest ih =>
    rcases List.mem_cons.mp hmem with hx | hx
    · subst hx
      unfold toEvidenceRefs
      rw [if_neg hne]
      exact List.mem_cons_self _ _
    · unfold toEvidenceRefs
      by_cases hxe : x = ""
      · rw [if_pos hxe]
        exact ih hx
      · rw [if_neg hxe]
        exact List.mem_cons_of_mem _ (ih hx)

/-- C8 (amended): every non-empty chunk id collected from a section
item's inline bracket citations yields exactly one evidence record; an
id that is absent from the retrieval-context metadata map is NOT dropped
— its record is produced with empty source_file and no page numbers —
while an id present in the map carries that entry's metadata. -/
theorem c8_citation_resolution_semantics (text : String)
    (metaMap : List (String × ChunkMeta)) :
    ((toEvidenceRefs (extractInlineCites text) metaMap).length
      = ((extractInlineCites text).filter (fun c => c ≠ "")).length) ∧
    (∀ cid, cid ∈ extractInlineCites text → cid ≠ "" → metaMap.lookup cid = none →
      ({ chunk_ids := [cid], source_file := "", page_numbers := [],
         verbatim_excerpt := "" } : EvidenceRef)
        ∈ toEvidenceRefs (extractInlineCites text) metaMap) ∧
    (∀ cid m, cid ∈ extractInlineCites text → cid ≠ "" →
      metaMap.lookup cid = some m →
      ({ chunk_ids := [cid], source_file := m.source_file,
         page_numbers := pagesOf m.page_number,
         verbatim_excerpt := "" } : EvidenceRef)
        ∈ toEvidenceRefs (extractInlineCites text) metaMap) := by
  refine ⟨toEvidenceRefs_length _ _, ?_, ?_⟩
  · intro cid hmem hne hnone
    have hrec := toEvidenceRefs_mem (extractInlineCites text) metaMap cid hmem hne
    rw [hnone] at hrec
    simpa [pagesOf] using hrec
  · intro cid m hmem hne hsome
    have hrec := toEvidenceRefs_mem (extractInlineCites text) metaMap cid hmem hne
    rw [hsome] at hrec
    simpa using hrec

def citeMetaMap : List (String × ChunkMeta) :=
  [("pdf-y", { source_file := "doc.pdf", page_number := some 3 })]

/-- Witness for c8_citation_resolution_semantics on a concrete text and
metadata map. -/
theorem c8_citation_resolution_semantics_witness :
    ((toEvidenceRefs (extractInlineCites ("see [pdf-x] and [pdf-y]")) citeMetaMap).length
      = ((extractInlineCites ("see [pdf-x] and [pdf-y]")).filter
          (fun c => c ≠ "")).length) ∧
    ({ chunk_ids := ["pdf-x"], source_file := "", page_numbers := [],
       verbatim_excerpt := "" } : EvidenceRef)
      ∈ toEvidenceRefs (extractInlineCites ("see [pdf-x] and [pdf-y]")) citeMetaMap ∧
    ({ chunk_ids := ["pdf-y"], source_file := "doc.pdf", page_numbers := [3],
       verbatim_excerpt := "" } : EvidenceRef)
      ∈ toEvidenceRefs (extractInlineCites ("see [pdf-x] and [pdf-y]")) citeMetaMap :=
  ⟨(c8_citation_resolution_semantics ("see [pdf-x] and [pdf-y]") citeMetaMap).1,
   (c8_citation_resolution_semantics ("see [pdf-x] and [pdf-y]") citeMetaMap).2.1
      "pdf-x" (by decide) (by decide) (by decide),
   (c8_citation_resolution_semantics ("see [pdf-x] and [pdf-y]") citeMetaMap).2.2
      "pdf-y" { source_file := "doc.pdf", page_number := some 3 }
      (by decide) (by decide) (by decide)⟩

end PDA
